import Mathlib

/-!
Verification development for the PPTXchecker rule engine.

The Python sources `pptchecker.py` (orchestrator `main_controller`) and
`rules.py` (the seven rules) are embedded shallowly below.  The helper module
`util` is imported by `rules.py` but its source is not part of the repository
snapshot; every definition that stands in for a `util` function is marked
"Modelled from the spec:" and follows the specification's description of that
collaborator.

Embedding conventions:
* Python lists of feedback strings become `List String`; the statement
  `slide_feedback[i] += s` becomes `addFb`, which fails with `PyErr.indexError`
  exactly when the index is out of range, as the Python statement would.
* Reading a local variable that may not have been assigned yet
  (`slide_background_color` in the contrast rule) is modelled with an
  `Option` state; reading `none` raises `PyErr.unboundLocalError`.
* Colors travel through the Python code as six-digit hex strings; the
  embedding uses the channel triple such a string denotes (`Rgb`).
* Mutation of the parsed deck (the contrast rule assigns
  `font.color.theme_color`) is modelled by returning the updated deck.
-/

namespace PPTXchecker

/-- RGB color as a channel triple (red, green, blue), each 0-255.  The Python
code passes colors around as six-digit hex strings such as "FFFFFF"; the
embedding uses the channel triple that the hex string denotes. -/
structure Rgb where
  r : Nat
  g : Nat
  b : Nat
deriving DecidableEq

/-- The literal "FFFFFF" used for non-solid slide backgrounds. -/
def whiteRgb : Rgb := ⟨255, 255, 255⟩

/-- The color black, 000000. -/
def blackRgb : Rgb := ⟨0, 0, 0⟩

/-- Theme color roles (MSO_THEME_COLOR).  Only the roles the engine touches
are enumerated; `dark1` is MSO_THEME_COLOR.DARK_1, the default the contrast
rule assigns to fonts whose color carries no type information. -/
inductive ThemeRole
  | dark1
  | light1
  | dark2
  | light2
  | accent1
  | accent2
deriving DecidableEq

/-- A color reference as python-pptx exposes it: an explicit RGB value, a
theme color with a brightness adjustment, or no type information at all
(`color.type is None`). -/
inductive ColorSpec
  | rgbColor (c : Rgb)
  | themeColor (roleName : ThemeRole) (brightness : ℚ)
  | noType (brightness : ℚ)
deriving DecidableEq

/-- Fill type: the code only distinguishes MSO_FILL.SOLID from everything
else. -/
inductive FillKind
  | solid
  | nonSolid
deriving DecidableEq

/-- A fill format: its type and its fore color. -/
structure FillFormat where
  kind : FillKind
  foreColor : ColorSpec
deriving DecidableEq

/-- Shape kind (MSO_SHAPE_TYPE), restricted to the tags the rules inspect. -/
inductive ShapeKind
  | autoShape
  | line
  | picture
  | chart
  | table
  | textBox
  | placeholder
  | otherKind
deriving DecidableEq

/-- Auto-shape sub-kind (MSO_SHAPE); rectangles and rounded rectangles are
exempt from the shape-fill contrast check. -/
inductive AutoShapeKind
  | rectangle
  | roundedRectangle
  | oval
  | otherAuto
deriving DecidableEq

/-- Rendering of `str(shape.shape_type)` as python-pptx prints the enum member. -/
def shapeKindStr : ShapeKind → String
  | .autoShape => "AUTO_SHAPE (1)"
  | .line => "LINE (9)"
  | .picture => "PICTURE (13)"
  | .chart => "CHART (3)"
  | .table => "TABLE (19)"
  | .textBox => "TEXT_BOX (17)"
  | .placeholder => "PLACEHOLDER (14)"
  | .otherKind => "MIXED (-2)"

/-- Rendering of `str(shape.auto_shape_type)` as python-pptx prints the enum member. -/
def autoShapeKindStr : AutoShapeKind → String
  | .rectangle => "RECTANGLE (1)"
  | .roundedRectangle => "ROUNDED_RECTANGLE (5)"
  | .oval => "OVAL (9)"
  | .otherAuto => "NOT_PRIMITIVE (-10)"

/-- A text run: its text, the font size in EMU (`font.size`, `none` when not
set), and the font color reference. -/
structure Run where
  text : String
  sizeEmu : Option Int
  color : ColorSpec
deriving DecidableEq

/-- A paragraph is its sequence of runs. -/
abbrev Paragraph := List Run

/-- A shape.  `fill` models `hasattr(shape, 'fill')` together with the value
of `shape.fill`; for LINE shapes the contrast rule rebinds `shape` to
`shape.line`, whose `fill` this field then models.  `lineWidthPt` is
`shape.line.width.pt`, meaningful for LINE shapes.  `frame` models
`has_text_frame` together with `text_frame.paragraphs`. -/
structure Shape where
  kind : ShapeKind
  autoKind : AutoShapeKind
  left : Int
  top : Int
  width : Int
  height : Int
  fill : Option FillFormat
  lineWidthPt : ℚ
  frame : Option (List Paragraph)
deriving DecidableEq

/-- Text of one paragraph: its runs concatenated. -/
def paragraphText (p : Paragraph) : String :=
  String.join (p.map Run.text)

/-- Python `shape.text`: paragraph texts joined by newlines (empty when the shape
has no text frame). -/
def shapeText (s : Shape) : String :=
  match s.frame with
  | none => ""
  | some ps => String.intercalate "\n" (ps.map paragraphText)

/-- A slide: its shapes, the text of its title placeholder
(`slide.shapes.title`, `none` when the slide has no title shape), the
background fill, the speaker-notes text and the number of explicit break
markers in the notes. -/
structure Slide where
  shapes : List Shape
  title : Option String
  bg : FillFormat
  notes : String
  numBreaks : Nat
deriving DecidableEq

/-- A deck: slides in order, the slide dimensions, and the resolved color
scheme.  Modelled from the spec: `util.get_color_scheme(prs)` is not in src;
the spec describes it as an ordered mapping from theme-color role to RGB,
carried here directly on the deck. -/
structure Deck where
  slides : List Slide
  slideWidth : Int
  slideHeight : Int
  scheme : List (ThemeRole × Rgb)
deriving DecidableEq

/-- The configuration record read from the YAML file. -/
structure Config where
  shapePosThreshold : ℚ
  shapeMinContrast : ℚ
  fontMinContrast : ℚ
  minSizeFont : ℚ
  minLineWidth : ℚ
  maxWordsPerSlide : Nat
  secondsPerWord : ℚ
  secondsPerPause : ℚ
  secondsPerBreak : ℚ
  secondsBetweenSlides : ℚ
deriving DecidableEq

/-- Errors the Python interpreter would raise while the engine runs. -/
inductive PyErr
  | indexError
  | unboundLocalError
  | nameError
  | attributeError
deriving DecidableEq

instance {ε α : Type} [DecidableEq ε] [DecidableEq α] : DecidableEq (Except ε α)
  | .error e, .error f => decidable_of_iff (e = f) (by simp)
  | .error _, .ok _ => isFalse (fun h => by cases h)
  | .ok _, .error _ => isFalse (fun h => by cases h)
  | .ok x, .ok y => decidable_of_iff (x = y) (by simp)

/-- Python `slide_feedback[i] += s` on a list of strings: appends to the
entry when `i` is in range and raises IndexError otherwise. -/
def addFb (fb : List String) (i : Nat) (s : String) : Except PyErr (List String) :=
  if h : i < fb.length then .ok (fb.set i (fb.get ⟨i, h⟩ ++ s))
  else .error .indexError

/-- Python `needle in hay` substring containment. -/
def pyContains (needle hay : String) : Bool :=
  (hay.splitOn needle).length > 1

/-- The circled digits one to nine (Unicode Numeric_Type=Digit). -/
def circledOneToNine : List Char :=
  ['①', '②', '③', '④', '⑤', '⑥', '⑦', '⑧', '⑨']

/-- Python `str.isdigit`, modelled on the characters this development uses:
ASCII digits and the circled digits one to nine have Unicode
Numeric_Type=Digit, so `isdigit` is true on them; the circled numbers ten to
twenty (① through ⑳ continue at U+2469) have Numeric_Type=Numeric, so
Python's `isdigit` is false on them. -/
def pyIsDigit (s : String) : Bool :=
  s ≠ "" && s.data.all (fun c => c.isDigit || circledOneToNine.contains c)

/-- Python `s.split(' ')`: split at every single space, keeping empty
pieces. -/
def pySplitSpace (s : String) : List String :=
  s.splitOn " "

/-- Python `s.split()` with no argument: split on whitespace, discarding
empty pieces. -/
def pySplitWs (s : String) : List String :=
  (s.split fun c => c.isWhitespace).filter (fun p => p ≠ "")

/-- Modelled from the spec: `util.is_backup_slide` is not in src; the spec
defines the backup boundary as a slide whose title contains "backup",
case-insensitively.  A slide with no title shape is not a boundary. -/
def isBackupSlide (s : Slide) : Bool :=
  match s.title with
  | some t => pyContains "backup" t.toLower
  | none => false

/-- Modelled from the spec: `util.within_bounds` is not in src; per the spec
a transition finding requires the position delta to exceed a tolerance window
of plus-minus the threshold fraction of the slide width respectively height,
so this returns true exactly when the move is outside that window. -/
def withinBounds (p c : Int × Int) (t : ℚ) (w h : Int) : Bool :=
  ((p.1 - c.1).natAbs : ℚ) > t * (w : ℚ) || ((p.2 - c.2).natAbs : ℚ) > t * (h : ℚ)

/-- Look up a theme role in the resolved color scheme. -/
def lookupScheme (scheme : List (ThemeRole × Rgb)) (role : ThemeRole) : Rgb :=
  ((scheme.find? fun e => e.1 == role).map Prod.snd).getD blackRgb

/-- Apply a brightness adjustment to one channel: lighten proportionally
toward white for positive brightness, darken toward black for negative,
unchanged at zero. -/
def adjustChannel (bright : ℚ) (c : Nat) : Nat :=
  if bright > 0 then (((c : ℚ) + (255 - (c : ℚ)) * bright).floor).toNat
  else if bright < 0 then (((c : ℚ) * (1 + bright)).floor).toNat
  else c

/-- Modelled from the spec: `util.get_scheme_color_rgb` is not in src; the
spec says it looks the role's base RGB up in the deck's color scheme and then
lightens or darkens proportionally according to the brightness value,
returning the base color unchanged at brightness zero. -/
def getSchemeColorRgb (scheme : List (ThemeRole × Rgb)) (role : ThemeRole)
    (bright : ℚ) : Rgb :=
  let base := lookupScheme scheme role
  ⟨adjustChannel bright base.r, adjustChannel bright base.g, adjustChannel bright base.b⟩

/-! ### Rule: must_end_with_summary_slide (rules.py lines 21-32) -/

/-- Loop body of `must_end_with_summary_slide`; the accumulator is
`summary_at_end`. -/
def summaryGo : List Slide → Bool → Bool
  | [], acc => acc
  | s :: rest, acc =>
    match s.title with
    | none => summaryGo rest acc
    | some t =>
      let tl := t.toLower
      if pyContains "summary" tl then summaryGo rest true
      else if pyContains "backup" tl then acc
      else if acc then false
      else summaryGo rest acc

/-- rules.py `must_end_with_summary_slide`. -/
def mustEndWithSummarySlide (prs : Deck) : Bool :=
  summaryGo prs.slides false

/-! ### Rule: should_have_slide_numbers (rules.py lines 35-92) -/

/-- The circled-number lookup table of rules.py lines 66-67, ① through ⑳. -/
def circledNumbers : List String :=
  ["①", "②", "③", "④", "⑤", "⑥", "⑦", "⑧", "⑨", "⑩",
   "⑪", "⑫", "⑬", "⑭", "⑮", "⑯", "⑰", "⑱", "⑲", "⑳"]

/-- Index of a string in the circled-number table (0 when absent; only used
under a membership guard, as in the Python code). -/
def circledIndex : List String → String → Nat
  | [], _ => 0
  | x :: rest, s => if x == s then 0 else circledIndex rest s + 1

/-- rules.py lines 68-69: `if shape_text.isdigit() and shape_text in
circled_numbers: shape_text = str(circled_numbers.index(shape_text) + 1)`.
Because Python's `isdigit` is false on ⑩ through ⑳, only ① through ⑨ are
ever normalized. -/
def normalizeSlideNumText (s : String) : String :=
  if pyIsDigit s && circledNumbers.contains s then
    toString (circledIndex circledNumbers s + 1)
  else s

/-- State of the slide-number scan: the rule's `has_slide_numbers` flag, the
canonical `shape_left`/`shape_top` position (both initialized to 0), and the
feedback list. -/
structure SNState where
  hasNums : Bool
  canonLeft : Int
  canonTop : Int
  fb : List String
deriving DecidableEq

/-- Body of the shape loop of `should_have_slide_numbers` (rules.py lines
58-84).  The Bool component is the slide's `slide_has_slide_number`.  Note
that the top/bottom-band test at lines 72-73 reads the variable `shape_top`
(the canonical tracker, initially 0), not `shape.top`. -/
def snShapeStep (slideHeight : Int) (slideNum : Nat) (st : SNState × Bool)
    (sh : Shape) : Except PyErr (SNState × Bool) :=
  match sh.frame with
  | none => .ok st
  | some ps =>
    if ps.length == 1 then
      let t := normalizeSlideNumText (shapeText sh).trim
      if (pyIsDigit t && t.toNat? == some slideNum) || t == "‹#›" then
        if ((st.1.canonTop : ℚ) > (slideHeight : ℚ) * ((9 : ℚ)/10) ||
            (st.1.canonTop : ℚ) < (slideHeight : ℚ) * ((1 : ℚ)/10)) then
          if st.1.canonLeft == 0 && st.1.canonTop == 0 then
            .ok ({ st.1 with hasNums := true, canonLeft := sh.left, canonTop := sh.top }, true)
          else if st.1.canonLeft != sh.left || st.1.canonTop != sh.top then do
            let fb' ← addFb st.1.fb (slideNum - 1)
              "Slide number is misplaced in a different location.\n"
            .ok ({ st.1 with hasNums := true, fb := fb' }, true)
          else .ok ({ st.1 with hasNums := true }, true)
        else .ok st
      else .ok st
    else .ok st

/-- Slide loop of `should_have_slide_numbers`.  The first slide is skipped
(`slide_num` is bumped from 1 to 2 and the loop continues before the backup
check); the rule returns early at a backup slide. -/
def snGo (slideHeight : Int) :
    List Slide → Nat → SNState → Except PyErr (Bool × List String)
  | [], _, st => .ok (st.hasNums, st.fb)
  | slide :: rest, slideNum, st =>
    if slideNum == 1 then snGo slideHeight rest 2 st
    else if isBackupSlide slide then .ok (st.hasNums, st.fb)
    else do
      let (st1, slideHas) ← slide.shapes.foldlM (snShapeStep slideHeight slideNum) (st, false)
      if st1.hasNums && !slideHas then do
        let fb' ← addFb st1.fb (slideNum - 1) "Slide number is missingon this slide.\n"
        snGo slideHeight rest (slideNum + 1) { st1 with fb := fb' }
      else snGo slideHeight rest (slideNum + 1) st1

/-- rules.py `should_have_slide_numbers`. -/
def shouldHaveSlideNumbers (prs : Deck) (fb : List String) :
    Except PyErr (Bool × List String) :=
  if prs.slides.length < 2 then .ok (true, fb)
  else snGo prs.slideHeight prs.slides 1 ⟨false, 0, 0, fb⟩

/-! ### Rule: has_smooth_slide_transitions (rules.py lines 95-181)

The Python code keys two dicts by `hash(','.join(shape_attrs))`; the
embedding keys an insertion-ordered association list by the joined string
itself (the structural key the hash is computed from), which matches the
dict behaviour whenever the hash does not collide. -/

/-- One fingerprint-map entry: the shape's (left, top) position and its
attribute list (`shapes_curr[h]` and `shapes_attr_curr[h]`, which the code
always populates together under the same key). -/
structure FpEntry where
  pos : Int × Int
  attrs : List String
deriving DecidableEq

/-- The fingerprint string for a shape at disambiguation index `i`:
`','.join([str(shape.shape_type), str(shape.width), str(shape.height),
str(shape_index)])`. -/
def fpBase (sh : Shape) (i : Nat) : String :=
  String.intercalate "," [shapeKindStr sh.kind, toString sh.width,
    toString sh.height, toString i]

/-- Association-list lookup on fingerprint maps. -/
def lookupFp (m : List (String × FpEntry)) (k : String) : Option FpEntry :=
  (m.find? fun e => e.1 == k).map Prod.snd

/-- The attribute list stored for a shape: the auto-shape sub-kind for
AUTO_SHAPEs, otherwise the shape type, followed by the shape's text when it
has a non-empty text frame. -/
def shapeAttrs (sh : Shape) : List String :=
  let base := if sh.kind == ShapeKind.autoShape then [autoShapeKindStr sh.autoKind]
              else [shapeKindStr sh.kind]
  if sh.frame.isSome && shapeText sh != "" then base ++ [shapeText sh] else base

/-- The first disambiguation index whose fingerprint is not yet in the map
(the `while True` loop at rules.py lines 117-125); searching
`0..m.length` always finds a free index because the candidate strings are
pairwise distinct. -/
def freeIndex (m : List (String × FpEntry)) (sh : Shape) : Nat :=
  (((List.range (m.length + 1)).find? fun i => (lookupFp m (fpBase sh i)).isNone)).getD 0

/-- Insert one shape into the fingerprint map (insertion order preserved). -/
def insertShape (m : List (String × FpEntry)) (sh : Shape) : List (String × FpEntry) :=
  m ++ [(fpBase sh (freeIndex m sh), ⟨(sh.left, sh.top), shapeAttrs sh⟩)]

/-- Fingerprint map of a whole slide. -/
def buildFpMap (shapes : List Shape) : List (String × FpEntry) :=
  shapes.foldl insertShape []

/-- The feedback message emitted for a flagged shape, from rules.py lines
159-174. -/
def transMsg (attrs : List String) : String :=
  if attrs.length > 1 then
    if attrs.getD 1 "" == "‹#›" then
      "Slide transition for the slide number is not smooth.\n"
    else
      "Slide transition for " ++ attrs.headD "" ++
        " is not smooth. This shape object holds the following text: " ++
        "'" ++ attrs.getD 1 "" ++ "'\n"
  else
    "Slide transition for " ++ attrs.headD "" ++ " is not smooth.\n"

/-- The comparison step for one pair of consecutive slides (rules.py lines
137-175), producing the list of (fingerprint, message) findings in map
order.  The first loop deletes from the previous map every fingerprint whose
position is unchanged and whose attribute list has unchanged length; the
second loop flags a surviving fingerprint when it is present on the current
slide with equal attribute-list length, a changed position outside the
tolerance window, and equal attributes. -/
def pairFindings (mPrev mCurr : List (String × FpEntry)) (t : ℚ) (w h : Int) :
    List (String × String) :=
  let remaining := mPrev.filter fun pe =>
    !(match lookupFp mCurr pe.1 with
      | some ce => ce.pos == pe.2.pos && ce.attrs.length == pe.2.attrs.length
      | none => false)
  remaining.filterMap fun pe =>
    match lookupFp mCurr pe.1 with
    | some ce =>
      if ce.attrs.length == pe.2.attrs.length &&
          (pe.2.pos != ce.pos && withinBounds pe.2.pos ce.pos t w h) &&
          pe.2.attrs == ce.attrs then
        some (pe.1, transMsg ce.attrs)
      else none
    | none => none

/-- Slide loop of `has_smooth_slide_transitions`: returns early at a backup
slide; runs the pair comparison only when both the previous and the current
fingerprint maps are non-empty; appends the pair's messages to the feedback
entry of the current (later) slide. -/
def transGo (t : ℚ) (w h : Int) :
    List Slide → Nat → List (String × FpEntry) → Bool → List String →
    Except PyErr (Bool × List String)
  | [], _, _, smooth, fb => .ok (smooth, fb)
  | slide :: rest, slideNum, mPrev, smooth, fb =>
    if isBackupSlide slide then .ok (smooth, fb)
    else
      let mCurr := buildFpMap slide.shapes
      if !mPrev.isEmpty && !mCurr.isEmpty then
        let fs := pairFindings mPrev mCurr t w h
        if fs.isEmpty then transGo t w h rest (slideNum + 1) mCurr smooth fb
        else do
          let fb' ← addFb fb (slideNum - 1) (String.join (fs.map Prod.snd))
          transGo t w h rest (slideNum + 1) mCurr false fb'
      else transGo t w h rest (slideNum + 1) mCurr smooth fb

/-- rules.py `has_smooth_slide_transitions`. -/
def hasSmoothSlideTransitions (prs : Deck) (cfg : Config) (fb : List String) :
    Except PyErr (Bool × List String) :=
  if prs.slides.length < 2 then .ok (true, fb)
  else transGo cfg.shapePosThreshold prs.slideWidth prs.slideHeight prs.slides 1 [] true fb

/-! ### Rule: should_have_high_contrast_fonts_colours (rules.py lines 184-342)

`util.calculate_contrast_ratio` is not in src; the rule is therefore
parameterized by the contrast function `cr` it calls, and the WCAG formula
the spec describes is modelled separately (`contrastRatioSpec` below) to
settle the pure Contrast-Evaluator facts.

The rule mutates the parsed deck at rules.py line 309
(`font.color.theme_color = MSO_THEME_COLOR.DARK_1`), so the embedding
returns the updated deck alongside the verdict and the feedback. -/

/-- Conversion `pptx.util.Pt(x)` to EMU. -/
def ptEmu (q : ℚ) : Int := (q * 12700).floor

/-- The failing-check test for a shape fill against the slide background,
rules.py line 255: the ratio is below the minimum AND is not exactly 1. -/
def shapeFillCheckFails (rt minR : ℚ) : Bool :=
  rt < minR && !(rt == 1)

/-- The failing-check test for a font color against its background,
rules.py lines 317-318: the ratio is below the minimum and no earlier font
in the shape was visible.  Unlike the shape-fill test there is no exclusion
of a ratio of exactly 1. -/
def fontColorCheckFails (rt minR : ℚ) (visible : Bool) : Bool :=
  rt < minR && !visible

/-- rules.py line 203 compares the fore-color OBJECT itself against the enum
member MSO_COLOR_TYPE.RGB (`slide.background.fill.fore_color ==
MSO_COLOR_TYPE.RGB`); a ColorFormat object never equals an enum member, so
the comparison is always false and the branch never assigns. -/
def foreColorEqualsRgbEnum (_c : ColorSpec) : Bool := false

/-- The `.rgb` field of a color reference (only reached from the dead branch
guarded by `foreColorEqualsRgbEnum`). -/
def colorSpecRgb : ColorSpec → Rgb
  | .rgbColor v => v
  | _ => blackRgb

/-- The `shape_descriptor` value as the failing branches compute it: the auto-shape
sub-kind for AUTO_SHAPEs, otherwise the shape type, stringified. -/
def shapeDescr (sh : Shape) : String :=
  if sh.kind == ShapeKind.autoShape then autoShapeKindStr sh.autoKind
  else shapeKindStr sh.kind

/-- State threaded through the font loop of one shape: the feedback list,
the rule's `result`, the shape's `at_least_one_font_visible` flag and the
accumulating `shape_feedback_comment_temp`. -/
structure RunSt where
  fb : List String
  result : Bool
  visible : Bool
  temp : String
deriving DecidableEq

/-- Resolve a font color as rules.py lines 304-313 do, also returning the
color reference as it is left in the deck: an untyped color is first
assigned the DARK_1 theme role in place (the mutation of line 309) and then
resolved through the scheme. -/
def resolveFontColor (scheme : List (ThemeRole × Rgb)) (c : ColorSpec) :
    Rgb × ColorSpec :=
  match c with
  | .rgbColor v => (v, c)
  | .themeColor role bright => (getSchemeColorRgb scheme role bright, c)
  | .noType bright => (getSchemeColorRgb scheme ThemeRole.dark1 bright,
      .themeColor ThemeRole.dark1 bright)

/-- The font-size check of rules.py lines 282-299.  `font.size` is falsy in
Python both when it is None and when it is 0 EMU. -/
def fontSizeCheck (cfg : Config) (descr : String) (slideNum : Nat)
    (st : RunSt) (r : Run) : Except PyErr RunSt :=
  match r.sizeEmu with
  | some sz =>
    if sz != 0 &&
        ((sz < ptEmu cfg.minSizeFont && (pySplitWs r.text).length > 2 &&
            !(r.text.startsWith "*")) ||
          sz < ptEmu (cfg.minSizeFont - 6)) then do
      let fb' ← addFb st.fb (slideNum - 1)
        ("🗚 Font size for text '" ++ r.text ++ "' in shape " ++ descr ++
          " is too small.\n")
      pure { st with fb := fb', result := false }
    else pure st
  | none => pure st

/-- Processing of one run (rules.py lines 279-334): the font-size check
first, then — for runs with non-empty text — the font-color contrast check,
which either extends the temporary comment or marks the shape as having a
visible font. -/
def contrastRunStep (cr : Rgb → Rgb → ℚ) (cfg : Config)
    (scheme : List (ThemeRole × Rgb)) (descr : String) (against : Rgb)
    (slideNum : Nat) (st : RunSt) (r : Run) : Except PyErr (RunSt × Run) := do
  let st1 ← fontSizeCheck cfg descr slideNum st r
  if r.text == "" then
    pure (st1, r)
  else
    let rc := resolveFontColor scheme r.color
    let rt := cr against rc.1
    if fontColorCheckFails rt cfg.fontMinContrast st1.visible then
      pure ({ st1 with temp := st1.temp ++
        ("🌈 Font colour contrast for text '" ++ r.text ++ "' in shape " ++
          descr ++ " is not sufficient from the background colour.\n") },
        { r with color := rc.2 })
    else
      pure ({ st1 with visible := true }, { r with color := rc.2 })

/-- The font loop over the runs of one paragraph, rebuilding the runs. -/
def contrastRunsGo (cr : Rgb → Rgb → ℚ) (cfg : Config)
    (scheme : List (ThemeRole × Rgb)) (descr : String) (against : Rgb)
    (slideNum : Nat) : List Run → RunSt → Except PyErr (RunSt × List Run)
  | [], st => .ok (st, [])
  | r :: rs, st => do
    let (st1, r') ← contrastRunStep cr cfg scheme descr against slideNum st r
    let (st2, rs') ← contrastRunsGo cr cfg scheme descr against slideNum rs st1
    .ok (st2, r' :: rs')

/-- The font loop over the paragraphs of one shape. -/
def contrastParasGo (cr : Rgb → Rgb → ℚ) (cfg : Config)
    (scheme : List (ThemeRole × Rgb)) (descr : String) (against : Rgb)
    (slideNum : Nat) : List Paragraph → RunSt → Except PyErr (RunSt × List Paragraph)
  | [], st => .ok (st, [])
  | p :: ps, st => do
    let (st1, p') ← contrastRunsGo cr cfg scheme descr against slideNum p st
    let (st2, ps') ← contrastParasGo cr cfg scheme descr against slideNum ps st1
    .ok (st2, p' :: ps')

/-- State threaded through the shape loop: feedback list and `result`. -/
structure ShapeSt where
  fb : List String
  result : Bool
deriving DecidableEq

/-- Resolution of a solid fill's fore color (rules.py lines 244-250): an
explicit RGB is taken as is, a theme color goes through the scheme, and a
color with no type information raises when its `.theme_color` attribute is
read on the else branch. -/
def resolveFillColor (scheme : List (ThemeRole × Rgb)) (c : ColorSpec) :
    Except PyErr Rgb :=
  match c with
  | .rgbColor v => pure v
  | .themeColor role bright => pure (getSchemeColorRgb scheme role bright)
  | .noType _ => .error PyErr.attributeError

/-- The LINE width check of rules.py lines 215-225. -/
def lineWidthCheck (cfg : Config) (slideNum : Nat) (st : ShapeSt) (sh : Shape) :
    Except PyErr ShapeSt :=
  if sh.kind == ShapeKind.line then
    if sh.lineWidthPt < cfg.minLineWidth then do
      let fb' ← addFb st.fb (slideNum - 1)
        ("🔎 Line width for " ++ shapeKindStr ShapeKind.line ++
          " is too small to be seen at " ++ toString sh.lineWidthPt ++ " pts.\n")
      pure { st with fb := fb', result := false }
    else pure st
  else pure st

/-- The read of the function-local `slide_background_color` at rules.py line
239: raises UnboundLocalError when the variable was never assigned. -/
def readBg (bg : Option Rgb) : Except PyErr Rgb :=
  match bg with
  | some v => pure v
  | none => .error PyErr.unboundLocalError

/-- The solid-fill contrast check of rules.py lines 243-275, returning the
state together with the `font_check_against_color` that the font loop will
use: the resolved fill color for solid fills, the slide background
otherwise. -/
def solidFillCheck (cr : Rgb → Rgb → ℚ) (cfg : Config)
    (scheme : List (ThemeRole × Rgb)) (slideNum : Nat) (bgv : Rgb)
    (fillF : FillFormat) (sh : Shape) (st : ShapeSt) :
    Except PyErr (ShapeSt × Rgb) :=
  if fillF.kind == FillKind.solid then do
    let colorRgb ← resolveFillColor scheme fillF.foreColor
    let rt := cr bgv colorRgb
    if shapeFillCheckFails rt cfg.shapeMinContrast then
      let isRect := sh.kind == ShapeKind.autoShape &&
        (sh.autoKind == AutoShapeKind.rectangle ||
          sh.autoKind == AutoShapeKind.roundedRectangle)
      if isRect then pure (st, colorRgb)
      else do
        let fb' ← addFb st.fb (slideNum - 1)
          ("🌈 Colour contrast for " ++ shapeDescr sh ++
            "is not sufficient from the slide background colour.\n")
        pure (({ st with fb := fb', result := false } : ShapeSt), colorRgb)
    else pure (st, colorRgb)
  else pure (st, bgv)

/-- The font loop of rules.py lines 277-338 for one shape, flushing the
temporary comment when no font in the shape was visible. -/
def shapeFontLoop (cr : Rgb → Rgb → ℚ) (cfg : Config)
    (scheme : List (ThemeRole × Rgb)) (slideNum : Nat) (against : Rgb)
    (st : ShapeSt) (sh : Shape) : Except PyErr (ShapeSt × Shape) :=
  if sh.kind != ShapeKind.line && sh.frame.isSome then do
    let q ← contrastParasGo cr cfg scheme (shapeDescr sh) against
      slideNum (sh.frame.getD []) ⟨st.fb, st.result, false, ""⟩
    let sh' := { sh with frame := some q.2 }
    if !q.1.visible && q.1.temp != "" then do
      let fb' ← addFb q.1.fb (slideNum - 1) q.1.temp
      .ok (({ fb := fb', result := false } : ShapeSt), sh')
    else .ok (({ fb := q.1.fb, result := q.1.result } : ShapeSt), sh')
  else .ok (st, sh)

/-- Processing of one shape (rules.py lines 206-338).  `bg` is the state of
the local variable `slide_background_color`; reading it while unassigned
raises UnboundLocalError, which happens at line 239 for every shape that
gets past the picture/chart/table skip and the `hasattr(shape, 'fill')`
test. -/
def contrastShapeStep (cr : Rgb → Rgb → ℚ) (cfg : Config)
    (scheme : List (ThemeRole × Rgb)) (slideNum : Nat) (bg : Option Rgb)
    (st : ShapeSt) (sh : Shape) : Except PyErr (ShapeSt × Shape) :=
  if sh.kind == ShapeKind.picture || sh.kind == ShapeKind.chart ||
      sh.kind == ShapeKind.table then
    .ok (st, sh)
  else do
    let st1 ← lineWidthCheck cfg slideNum st sh
    match sh.fill with
    | none => .ok (st1, sh)
    | some fillF => do
      let bgv ← readBg bg
      let sp ← solidFillCheck cr cfg scheme slideNum bgv fillF sh st1
      shapeFontLoop cr cfg scheme slideNum sp.2 sp.1 sh

/-- The shape loop over one slide, rebuilding the shapes. -/
def contrastShapesGo (cr : Rgb → Rgb → ℚ) (cfg : Config)
    (scheme : List (ThemeRole × Rgb)) (slideNum : Nat) (bg : Option Rgb) :
    List Shape → ShapeSt → Except PyErr (ShapeSt × List Shape)
  | [], st => .ok (st, [])
  | sh :: shs, st => do
    let (st1, sh') ← contrastShapeStep cr cfg scheme slideNum bg st sh
    let (st2, shs') ← contrastShapesGo cr cfg scheme slideNum bg shs st1
    .ok (st2, sh' :: shs')

/-- The slide loop of the contrast rule.  `bg` carries the function-local
variable `slide_background_color` across iterations: it is set to white when
the slide background is not solid, while the `elif` of line 203 never fires
(see `foreColorEqualsRgbEnum`), so a solid background leaves it unchanged.
The early return at a backup slide leaves the remaining slides untouched. -/
def contrastSlidesGo (cr : Rgb → Rgb → ℚ) (cfg : Config)
    (scheme : List (ThemeRole × Rgb)) :
    List Slide → Nat → Option Rgb → Bool → List String →
    Except PyErr (Bool × List String × List Slide)
  | [], _, _, res, fb => .ok (res, fb, [])
  | s :: rest, slideNum, bg, res, fb =>
    if isBackupSlide s then .ok (res, fb, s :: rest)
    else
      let bg' := if s.bg.kind != FillKind.solid then some whiteRgb
                 else if foreColorEqualsRgbEnum s.bg.foreColor then
                   some (colorSpecRgb s.bg.foreColor)
                 else bg
      do
        let (st, shapes') ← contrastShapesGo cr cfg scheme slideNum bg' s.shapes ⟨fb, res⟩
        let (res', fb', rest') ← contrastSlidesGo cr cfg scheme rest (slideNum + 1)
          bg' st.result st.fb
        .ok (res', fb', { s with shapes := shapes' } :: rest')

/-- rules.py `should_have_high_contrast_fonts_colours`, parameterized by the
contrast function (`util.calculate_contrast_ratio`, not in src). -/
def shouldHaveHighContrastFontsColours (cr : Rgb → Rgb → ℚ) (prs : Deck)
    (cfg : Config) (fb : List String) :
    Except PyErr (Bool × List String × Deck) := do
  let (res, fb', slides') ← contrastSlidesGo cr cfg prs.scheme prs.slides 1 none true fb
  .ok (res, fb', { prs with slides := slides' })

/-! ### Rule: should_not_have_excessive_text (rules.py lines 345-374)

This rule iterates over ALL slides of the deck, with no backup-boundary
check; its feedback writes can therefore land past the end of the
orchestrator's feedback list. -/

/-- Accumulate one run into `slide_text` (rules.py lines 358-364): runs of
more than two space-split pieces are added, unless they equal the slide
title after trimming. -/
def excessiveRunStep (title : Option String) (acc : String) (r : Run) : String :=
  if (pySplitSpace r.text).length > 2 then
    match title with
    | some t => if r.text.trim == t.trim then acc else acc ++ r.text.trim ++ " "
    | none => acc ++ r.text.trim ++ " "
  else acc

/-- The accumulated `slide_text` for one slide. -/
def excessiveSlideText (s : Slide) : String :=
  s.shapes.foldl
    (fun acc sh =>
      match sh.frame with
      | none => acc
      | some ps => ps.foldl (fun a p => p.foldl (excessiveRunStep s.title) a) acc)
    ""

/-- Slide loop of `should_not_have_excessive_text`; the accumulator is
`has_excessive_text` and the function result is its negation. -/
def excessiveGo (maxW : Nat) :
    List Slide → Nat → Bool → List String → Except PyErr (Bool × List String)
  | [], _, hasEx, fb => .ok (!hasEx, fb)
  | s :: rest, slideNum, hasEx, fb =>
    if (pySplitSpace (excessiveSlideText s)).length > maxW then do
      let fb' ← addFb fb (slideNum - 1) "😴 Excessive amount of words on this slide.\n"
      excessiveGo maxW rest (slideNum + 1) true fb'
    else excessiveGo maxW rest (slideNum + 1) hasEx fb

/-- rules.py `should_not_have_excessive_text`. -/
def shouldNotHaveExcessiveText (prs : Deck) (cfg : Config) (fb : List String) :
    Except PyErr (Bool × List String) :=
  excessiveGo cfg.maxWordsPerSlide prs.slides 1 false fb

/-! ### Rule: does_not_have_complete_sentences (rules.py lines 377-412)

The classification pipeline (`initialize_word_set`,
`convert_string_into_word_tokens`, `identify_parts_of_speech`,
`is_full_sentence`) lives in `util`, which is not in src; the spec calls the
classifier underspecified and best-effort, so the rule is parameterized by
the composed classifier `classify`. -/

/-- The syntactic pre-filter of rules.py lines 395-399, applied to the
trimmed run text: not equal to the lowercased title, more than four
space-split pieces, not ending in a question mark, containing neither a
colon nor a hyphen. -/
def sentenceQualifies (titleLower t : String) : Bool :=
  t.trim != titleLower.trim && (pySplitSpace t).length > 4 &&
    !t.endsWith "?" && !t.contains ':' && !t.contains '-'

/-- Run loop of the sentence rule over the flattened runs of one slide. -/
def sentenceRunStep (classify : String → Bool) (titleLower : String)
    (slideNum : Nat) (ac : Bool × List String) (r : Run) :
    Except PyErr (Bool × List String) :=
  if r.text.trim != "" && sentenceQualifies titleLower r.text.trim &&
      classify r.text.trim then do
    let fb' ← addFb ac.2 (slideNum - 1) ("Avoid full sentences: '" ++ r.text ++ "'\n")
    .ok (false, fb')
  else .ok ac

/-- Slide loop of the sentence rule; like the excessive-text rule it visits
every slide of the deck, with no backup check. -/
def sentencesGo (classify : String → Bool) :
    List Slide → Nat → Bool → List String → Except PyErr (Bool × List String)
  | [], _, res, fb => .ok (res, fb)
  | s :: rest, slideNum, res, fb => do
    let titleLower := (match s.title with | some t => t.toLower | none => "")
    let runs := ((s.shapes.filterMap Shape.frame).flatten).flatten
    let ac ← runs.foldlM (sentenceRunStep classify titleLower slideNum) (res, fb)
    sentencesGo classify rest (slideNum + 1) ac.1 ac.2

/-- rules.py `does_not_have_complete_sentences`, parameterized by the
composed part-of-speech classifier. -/
def doesNotHaveCompleteSentences (classify : String → Bool) (prs : Deck)
    (fb : List String) : Except PyErr (Bool × List String) :=
  sentencesGo classify prs.slides 1 true fb

/-! ### Rule: estimate_presentation_length (rules.py lines 415-456) -/

/-- Two-digit zero padding, as strftime renders each field. -/
def fmt2 (n : Nat) : String :=
  if n < 10 then "0" ++ toString n else toString n

/-- Python `time.strftime('%H:%M:%S', time.gmtime(q))`: hours of day, minutes,
seconds of the truncated second count. -/
def fmtHMS (q : ℚ) : String :=
  let n := q.floor.toNat
  fmt2 ((n / 3600) % 24) ++ ":" ++ fmt2 ((n % 3600) / 60) ++ ":" ++ fmt2 (n % 60)

/-- Python `time.strftime('%M:%S', time.gmtime(q))`. -/
def fmtMS (q : ℚ) : String :=
  let n := q.floor.toNat
  fmt2 ((n % 3600) / 60) ++ ":" ++ fmt2 (n % 60)

/-- The sentence-terminal punctuation marks of rules.py line 422. -/
def punctList : List String := [".", "?", "!"]

/-- One fold step of the punctuation loop (rules.py lines 444-447): add
`count(p) * seconds_per_pause` and strip the mark from the notes. -/
def punctStep (perPause : ℚ) (ac : ℚ × String) (p : String) : ℚ × String :=
  (ac.1 + (((ac.2.splitOn p).length - 1 : Nat) : ℚ) * perPause,
    String.join (ac.2.splitOn p))

/-- The speaking-time cost of one slide (rules.py lines 442-450): break
count times seconds-per-break, plus one pause per sentence-terminal mark
(each mark is stripped from the notes before the next is counted), plus the
space-split word count of the stripped notes times seconds-per-word. -/
def slideTimeCost (cfg : Config) (s : Slide) : ℚ :=
  let start := ((s.numBreaks : ℚ) * cfg.secondsPerBreak, s.notes)
  let afterPunct := punctList.foldl (punctStep cfg.secondsPerPause) start
  let words := pySplitSpace afterPunct.2.trim
  afterPunct.1 + (words.length : ℚ) * cfg.secondsPerWord

/-- Slide loop of `estimate_presentation_length`.  The empty-notes counter
is incremented and the `> 2` abort is checked BEFORE the backup-boundary
break, so the backup slide itself is scanned; slides after it are not. -/
def timingGo (cfg : Config) :
    List Slide → ℚ → Nat → List String → List String →
    Option String × Option (List String) × Option (List String)
  | [], total, _, times, cumul => (some (fmtHMS total), some times, some cumul)
  | s :: rest, total, emptyCount, times, cumul =>
    let emptyCount' := if s.notes == "" then emptyCount + 1 else emptyCount
    if emptyCount' > 2 then (none, none, none)
    else if isBackupSlide s then (some (fmtHMS total), some times, some cumul)
    else
      timingGo cfg rest (total + slideTimeCost cfg s + cfg.secondsBetweenSlides)
        emptyCount' (times ++ [fmtMS (slideTimeCost cfg s)]) (cumul ++ [fmtHMS total])

/-- rules.py `estimate_presentation_length`.  Modelled from the spec:
`util.get_slide_notes` is not in src; per the spec it returns the slide's
speaker-notes text and the count of explicit pause/break markers, carried
here as the `notes` and `numBreaks` fields of the slide. -/
def estimatePresentationLength (prs : Deck) (cfg : Config) :
    Option String × Option (List String) × Option (List String) :=
  timingGo cfg prs.slides 0 0 [] []

/-! ### Orchestrator: main_controller (pptchecker.py lines 28-84) -/

/-- The aggregated output handed to the renderer. -/
structure FeedbackModel where
  startSlideNum : Nat
  slideFeedback : List String
  slideTimes : Option (List String)
  cumulSlideTimes : Option (List String)
  generalFeedback : String
  timeEstimate : Option String
  passAllChecks : Bool
deriving DecidableEq, Inhabited

/-- The feedback-list construction of pptchecker.py lines 29-35: one empty
entry per slide before the first backup slide. -/
def initialFeedback : List Slide → List String
  | [] => []
  | s :: rest => if isBackupSlide s then [] else "" :: initialFeedback rest

/-- Python `feedback.replace('\n', '<br>')` at the character level. -/
def pyReplaceNlChars : List Char → List Char
  | [] => []
  | c :: rest =>
    if c == '\n' then '<' :: 'b' :: 'r' :: '>' :: pyReplaceNlChars rest
    else c :: pyReplaceNlChars rest

/-- Python `feedback.replace('\n', '<br>')`. -/
def pyReplaceNl (s : String) : String :=
  String.mk (pyReplaceNlChars s.data)

/-- The final loop of pptchecker.py lines 70-74: `pass_all_checks` becomes
false exactly when some feedback entry is non-empty, and non-empty entries
get their newlines replaced by `<br>`. -/
def finalizeFb : List String → Bool × List String
  | [] => (true, [])
  | f :: rest =>
    if f == "" then ((finalizeFb rest).1, f :: (finalizeFb rest).2)
    else (false, pyReplaceNl f :: (finalizeFb rest).2)

/-- The accumulated `general_feedback` string: the boolean rules' messages
appended in the order the orchestrator runs the rules (pptchecker.py lines
40-59). -/
def generalFeedbackOf (summaryOk satNums satTrans satContrast satText : Bool) :
    String :=
  (if summaryOk then "" else "Please end the presention with a summary slide.<br>") ++
  (if satNums then "" else "Please add slide numbers.<br>") ++
  (if satTrans then "" else "Please check slide transitions.<br>") ++
  (if satContrast then "" else "Please check colours and fonts.<br>") ++
  (if satText then "" else "Please ensure that slides do not have too much text.<br>")

/-- The `start_slide_num` value: assigned (to 0, the index of the first slide) during
the feedback-building loop; on an empty deck it is never assigned and the
read at pptchecker.py line 77 raises NameError. -/
def startSlideNumOf (prs : Deck) : Except PyErr Nat :=
  match prs.slides with
  | [] => .error PyErr.nameError
  | _ => pure 0

/-- Assembly of the display record (pptchecker.py lines 70-81) from the
start index, the general feedback, the timing-estimate triple and the raw
per-slide feedback list. -/
def mkModel (start : Nat) (g : String)
    (te : Option String × Option (List String) × Option (List String))
    (l : List String) : FeedbackModel :=
  { startSlideNum := start, slideFeedback := (finalizeFb l).2,
    slideTimes := te.2.1, cumulSlideTimes := te.2.2, generalFeedback := g,
    timeEstimate := te.1, passAllChecks := (finalizeFb l).1 }

/-- pptchecker.py `main_controller`, parameterized by the sentence
classifier and the contrast function.  The contrast rule's in-place deck
mutation (`r4.2.2`) is passed on to the rules that run after it.  The
summary rule and the timing estimator only read the deck, so evaluating
them inside `generalFeedbackOf`/`mkModel` (after the feedback-threading
rules) yields the same record the Python statement order produces. -/
def mainController (classify : String → Bool) (cr : Rgb → Rgb → ℚ)
    (prs : Deck) (cfg : Config) : Except PyErr FeedbackModel := do
  let r2 ← shouldHaveSlideNumbers prs (initialFeedback prs.slides)
  let r3 ← hasSmoothSlideTransitions prs cfg r2.2
  let r4 ← shouldHaveHighContrastFontsColours cr prs cfg r3.2
  let r5 ← shouldNotHaveExcessiveText r4.2.2 cfg r4.2.1
  let r6 ← doesNotHaveCompleteSentences classify r4.2.2 r5.2
  let start ← startSlideNumOf prs
  .ok (mkModel start
    (generalFeedbackOf (mustEndWithSummarySlide prs) r2.1 r3.1 r4.1 r5.1)
    (estimatePresentationLength r4.2.2 cfg) r6.2)

/-! ### The Contrast Evaluator, modelled from the spec

`util.calculate_contrast_ratio` is not in src.  The spec describes it as the
standard relative-luminance contrast: gamma-corrected channel weighting and
ratio `(L_lighter + 0.05) / (L_darker + 0.05)`, with range [1, 21].  The
following real-valued model spells that formula out (the WCAG one). -/

/-- Gamma expansion of one sRGB channel scaled to [0, 1]. -/
noncomputable def gammaExpand (c : ℚ) : ℝ :=
  if (c : ℝ) ≤ 0.03928 then (c : ℝ) / 12.92
  else (((c : ℝ) + 0.055) / 1.055) ^ (2.4 : ℝ)

/-- Relative luminance of a color. -/
noncomputable def relLuminance (v : Rgb) : ℝ :=
  0.2126 * gammaExpand ((v.r : ℚ) / 255) + 0.7152 * gammaExpand ((v.g : ℚ) / 255) +
    0.0722 * gammaExpand ((v.b : ℚ) / 255)

/-- Modelled from the spec: the contrast between two colors,
`(L_lighter + 0.05) / (L_darker + 0.05)`. -/
noncomputable def contrastRatioSpec (a b : Rgb) : ℝ :=
  (max (relLuminance a) (relLuminance b) + 0.05) /
    (min (relLuminance a) (relLuminance b) + 0.05)

/-- A computable stand-in for the contrast function, used to instantiate the
contrast parameter of the rules on the concrete decks below.  On the color
pairs those decks actually compare it agrees with `contrastRatioSpec`: two
equal colors have ratio exactly 1 (`contrastRatioSpec_self`) and the
black/white pair has ratio 21 (`contrastRatioSpec_black_white`). -/
def crWW (a b : Rgb) : ℚ :=
  if a = b then 1 else 21

/-! ### Claim-level definitions (following the spec's wording) -/

/-- The number of in-scope slides in the spec's sense: the slides before the
first backup-slide boundary, or all slides when there is none. -/
def inScopeCount (prs : Deck) : Nat :=
  (prs.slides.takeWhile fun s => !isBackupSlide s).length

/-- The slides the timing estimator scans before it stops: everything up to
and including the first backup-boundary slide (its notes are examined before
the loop breaks on its title). -/
def scannedSlides : List Slide → List Slide
  | [] => []
  | s :: rest => if isBackupSlide s then [s] else s :: scannedSlides rest

/-- Number of slides with empty speaker notes in a list. -/
def emptyNotesCount (slides : List Slide) : Nat :=
  (slides.filter fun s => s.notes == "").length

/-- A run whose font color carries type information (it is not
`color.type is None`). -/
def runColorTyped (r : Run) : Bool :=
  match r.color with
  | .noType _ => false
  | _ => true

/-- Every font color in the deck carries type information, so the contrast
rule's default-to-DARK_1 fallback is never applied. -/
def deckFontColorsTyped (prs : Deck) : Bool :=
  prs.slides.all fun s => s.shapes.all fun sh =>
    (sh.frame.getD []).all fun p => p.all runColorTyped

/-- A shape that reaches the read of `slide_background_color` at rules.py
line 239: it survives the picture/chart/table skip and has a fill
attribute. -/
def reachesFillRead (sh : Shape) : Bool :=
  !(sh.kind == ShapeKind.picture || sh.kind == ShapeKind.chart ||
      sh.kind == ShapeKind.table) && sh.fill.isSome

/-- The python-pptx well-formedness fact behind "a shape with a fill
attribute": picture, chart and table shapes expose no `fill` attribute, so
in a deck produced by the library their `fill` field is `none`. -/
def deckFillWF (prs : Deck) : Bool :=
  prs.slides.all fun s => s.shapes.all fun sh =>
    !(sh.kind == ShapeKind.picture || sh.kind == ShapeKind.chart ||
        sh.kind == ShapeKind.table) || sh.fill == none

/-! ### Concrete decks and configurations used by the closed theorems -/

/-- A shapeless slide with non-solid background and short notes. -/
def plainSlide : Slide :=
  { shapes := [], title := none, bg := ⟨FillKind.nonSolid, .rgbColor whiteRgb⟩,
    notes := "Hi.", numBreaks := 0 }

/-- A text box holding one single-run paragraph of black text. -/
def textShape (t : String) (l tp : Int) : Shape :=
  { kind := ShapeKind.textBox, autoKind := AutoShapeKind.otherAuto, left := l,
    top := tp, width := 100, height := 50, fill := none, lineWidthPt := 0,
    frame := some [[⟨t, none, .rgbColor blackRgb⟩]] }

/-- A configuration with maximum word count `m` and simple values
everywhere else (contrast minimums 3 and 4.5, one second per timing unit). -/
def cfgW (m : Nat) : Config :=
  ⟨1/10, 3, 9/2, 18, 1, m, 1, 1, 1, 1⟩

/-- Slide 2 of this deck carries the digit "2" in a single-paragraph shape
placed at half the slide height: the middle band. -/
def c5Deck : Deck :=
  { slides := [plainSlide, { plainSlide with shapes := [textShape "2" 100 500] }],
    slideWidth := 2000, slideHeight := 1000, scheme := [(ThemeRole.dark1, blackRgb)] }

/-- A ten-slide deck whose tenth slide carries the circled number ⑩ in a
single-paragraph shape in the bottom band. -/
def c6Deck : Deck :=
  { slides := List.replicate 9 plainSlide ++
      [{ plainSlide with shapes := [textShape "⑩" 100 950] }],
    slideWidth := 2000, slideHeight := 1000, scheme := [(ThemeRole.dark1, blackRgb)] }

/-- The ten-word agenda string of the spec's excessive-text example. -/
def agendaRun : String :=
  "Agenda\nItem one\nItem two\nItem three\nItem four extra words"

/-- The spec's excessive-text slide: title "Agenda", the title run, and one
run holding `agendaRun`. -/
def c8Slide : Slide :=
  { shapes := [textShape "Agenda" 0 0, textShape agendaRun 0 100],
    title := some "Agenda", bg := ⟨FillKind.nonSolid, .rgbColor whiteRgb⟩,
    notes := "", numBreaks := 0 }

/-- One-slide deck around `c8Slide`. -/
def c8Deck : Deck :=
  { slides := [c8Slide], slideWidth := 2000, slideHeight := 1000, scheme := [] }

/-- A backup-titled slide with non-empty notes. -/
def backupSlide : Slide :=
  { plainSlide with title := some "Backup", notes := "Go." }

/-- A slide with empty speaker notes. -/
def emptySlide : Slide :=
  { plainSlide with notes := "" }

/-- Five slides, three of them with empty notes, but the second one is a
backup boundary, so the estimator never sees the empty notes. -/
def c7Deck : Deck :=
  { slides := [plainSlide, backupSlide, emptySlide, emptySlide, emptySlide],
    slideWidth := 100, slideHeight := 100, scheme := [] }

/-- Five slides with no backup boundary, three of them with empty notes. -/
def c7bDeck : Deck :=
  { slides := [plainSlide, plainSlide, emptySlide, emptySlide, emptySlide],
    slideWidth := 100, slideHeight := 100, scheme := [] }

/-- A text box with a fill attribute (non-solid fill) holding one white-font
run "hi" on a white background: the contrast ratio is exactly 1. -/
def c3Shape : Shape :=
  { kind := ShapeKind.textBox, autoKind := AutoShapeKind.otherAuto, left := 0,
    top := 0, width := 100, height := 50,
    fill := some ⟨FillKind.nonSolid, .rgbColor whiteRgb⟩, lineWidthPt := 0,
    frame := some [[⟨"hi", none, .rgbColor whiteRgb⟩]] }

/-- One-shape slide around `c3Shape`, non-solid background (resolved to
white). -/
def c3Slide : Slide :=
  { shapes := [c3Shape], title := none,
    bg := ⟨FillKind.nonSolid, .rgbColor whiteRgb⟩, notes := "Hi.", numBreaks := 0 }

/-- One-slide deck around `c3Slide`. -/
def c3Deck : Deck :=
  { slides := [c3Slide], slideWidth := 2000, slideHeight := 1000,
    scheme := [(ThemeRole.dark1, blackRgb)] }

/-- The font-contrast message the rule produces for `c3Deck`. -/
def c3Msg : String :=
  "🌈 Font colour contrast for text 'hi' in shape TEXT_BOX (17) is not sufficient from the background colour.\n"

/-- Like `c3Shape` but the font color carries no type information. -/
def c9Shape : Shape :=
  { c3Shape with frame := some [[⟨"hi", none, .noType 0⟩]] }

/-- One-shape slide around `c9Shape`. -/
def c9Slide : Slide :=
  { c3Slide with shapes := [c9Shape] }

/-- One-slide deck around `c9Slide`. -/
def c9Deck : Deck :=
  { c3Deck with slides := [c9Slide] }

/-- Shape `c9Shape` after the contrast rule's in-place default: the font color now
names the DARK_1 theme role. -/
def c9ShapeOut : Shape :=
  { c9Shape with frame := some [[⟨"hi", none, .themeColor ThemeRole.dark1 0⟩]] }

/-- The deck the contrast rule hands back for `c9Deck`. -/
def c9DeckOut : Deck :=
  { c9Deck with slides := [{ c9Slide with shapes := [c9ShapeOut] }] }

/-- A shape with a fill attribute and no text frame. -/
def c10Shape : Shape :=
  { c3Shape with frame := none }

/-- A slide with a SOLID background fill and one shape that reaches the
background-color read. -/
def c10Slide : Slide :=
  { c3Slide with shapes := [c10Shape], bg := ⟨FillKind.solid, .rgbColor whiteRgb⟩ }

/-- One-slide deck around `c10Slide`. -/
def c10Deck : Deck :=
  { c3Deck with slides := [c10Slide], scheme := [] }

/-- One plain slide: no summary slide anywhere, no per-slide findings. -/
def c2Deck : Deck :=
  { slides := [plainSlide], slideWidth := 2000, slideHeight := 1000, scheme := [] }

/-- A sentence classifier that never fires (any concrete classifier would
do for the decks below, which contain no qualifying runs). -/
def classify0 : String → Bool := fun _ => false

/-- The model `main_controller` produces for `c2Deck` with `cfgW 8`. -/
def c2Model : FeedbackModel :=
  { startSlideNum := 0, slideFeedback := [""], slideTimes := some ["00:02"],
    cumulSlideTimes := some ["00:00:00"],
    generalFeedback := "Please end the presention with a summary slide.<br>",
    timeEstimate := some "00:00:03", passAllChecks := true }

/-- A one-entry previous-slide fingerprint map: an oval at the origin. -/
def wPrevMap : List (String × FpEntry) :=
  [("AUTO_SHAPE (1),300,200,0", ⟨(0, 0), ["OVAL (9)"]⟩)]

/-- The same fingerprint on the next slide, moved to (900, 900). -/
def wCurrMap : List (String × FpEntry) :=
  [("AUTO_SHAPE (1),300,200,0", ⟨(900, 900), ["OVAL (9)"]⟩)]

/-- An oval auto-shape of size 300 by 200 at the given position. -/
def ovalShape (l tp : Int) : Shape :=
  { kind := ShapeKind.autoShape, autoKind := AutoShapeKind.oval, left := l,
    top := tp, width := 300, height := 200, fill := none, lineWidthPt := 0,
    frame := none }

/-- First slide of the moved-oval pair: the oval at the origin. -/
def tSlideA : Slide :=
  { plainSlide with shapes := [ovalShape 0 0] }

/-- Second slide of the moved-oval pair: the oval at (900, 900). -/
def tSlideB : Slide :=
  { plainSlide with shapes := [ovalShape 900 900] }

/-- The two-slide deck around the moved oval. -/
def tDeck : Deck :=
  { slides := [tSlideA, tSlideB], slideWidth := 1000, slideHeight := 1000,
    scheme := [] }

/-! ### Facts about the spec-modelled Contrast Evaluator -/

theorem gammaExpand_nonneg (c : ℚ) (hc : 0 ≤ c) : 0 ≤ gammaExpand c := by
  unfold gammaExpand
  split
  · positivity
  · exact Real.rpow_nonneg (by positivity) _

theorem relLuminance_nonneg (v : Rgb) : 0 ≤ relLuminance v := by
  unfold relLuminance
  have h1 := gammaExpand_nonneg ((v.r : ℚ) / 255) (by positivity)
  have h2 := gammaExpand_nonneg ((v.g : ℚ) / 255) (by positivity)
  have h3 := gammaExpand_nonneg ((v.b : ℚ) / 255) (by positivity)
  nlinarith

/-- The contrast ratio of a color with itself is exactly 1. -/
theorem contrastRatioSpec_self (v : Rgb) : contrastRatioSpec v v = 1 := by
  unfold contrastRatioSpec
  have h := relLuminance_nonneg v
  rw [max_self, min_self, div_self]
  nlinarith

theorem gammaExpand_zero : gammaExpand 0 = 0 := by
  unfold gammaExpand
  norm_num

theorem gammaExpand_one : gammaExpand 1 = 1 := by
  unfold gammaExpand
  rw [if_neg (by norm_num)]
  norm_num

theorem relLuminance_black : relLuminance blackRgb = 0 := by
  unfold relLuminance blackRgb
  norm_num [gammaExpand_zero]

theorem relLuminance_white : relLuminance whiteRgb = 1 := by
  unfold relLuminance whiteRgb
  norm_num [gammaExpand_one]

/-- The contrast ratio of black against white is the maximum, 21. -/
theorem contrastRatioSpec_black_white :
    contrastRatioSpec blackRgb whiteRgb = 21 := by
  unfold contrastRatioSpec
  rw [relLuminance_black, relLuminance_white]
  norm_num

set_option maxRecDepth 400000

/-! ### Claim C5 -/

/-- C5: the claim says a single-paragraph shape counts as a slide number
only if THAT SHAPE is positioned in the top or bottom 10% of the slide
height.  The code instead tests the canonical tracker variable `shape_top`
(initialized to 0, hence always inside the bottom band at first), so the
matching shape of `c5Deck`, placed at half the slide height, IS accepted:
the rule returns `True` with no findings. -/
theorem slide_number_midband_accepted :
    shouldHaveSlideNumbers c5Deck ["", ""] = .ok (true, ["", ""]) := by
  with_unfolding_all decide

/-! ### Claim C6 -/

/-- C6: the claim says every glyph ① through ⑳ is normalized to its plain
digit.  The normalization at rules.py line 68 is guarded by
`shape_text.isdigit()`, which is false on ⑩ through ⑳, so ⑩ is left
unormalized and slide 10 of `c6Deck`, whose only candidate shape holds ⑩,
is not recognized: the rule returns `False`. -/
theorem circled_ten_not_recognized :
    normalizeSlideNumText "⑩" = "⑩" ∧
      shouldHaveSlideNumbers c6Deck (List.replicate 10 "") =
        .ok (false, List.replicate 10 "") := by
  refine ⟨by with_unfolding_all decide, by with_unfolding_all decide⟩

/-! ### Claim C8 -/

/-- C8 counterexample: the claim says the agenda slide is reported as
excessive when the configured maximum is 8.  The code's space-split count of
the slide text is exactly 8 (newlines do not split, and the trailing empty
piece is counted), and `8 > 8` is false, so with maximum 8 the rule does NOT
flag the slide and returns `True`. -/
theorem excessive_text_max8_not_flagged_cex :
    (pySplitSpace (excessiveSlideText c8Slide)).length = 8 ∧
      shouldNotHaveExcessiveText c8Deck (cfgW 8) [""] = .ok (true, [""]) := by
  refine ⟨by with_unfolding_all decide, by with_unfolding_all decide⟩

/-- C8 amended: the agenda slide is flagged as excessive exactly when the
configured maximum is below the code's space-split count of 8 — it is
flagged at maximum 7 and not flagged at maximum 8 or 20. -/
theorem excessive_text_agenda_thresholds :
    shouldNotHaveExcessiveText c8Deck (cfgW 7) [""] =
        .ok (false, ["😴 Excessive amount of words on this slide.\n"]) ∧
      shouldNotHaveExcessiveText c8Deck (cfgW 8) [""] = .ok (true, [""]) ∧
      shouldNotHaveExcessiveText c8Deck (cfgW 20) [""] = .ok (true, [""]) := by
  refine ⟨by with_unfolding_all decide, by with_unfolding_all decide,
    by with_unfolding_all decide⟩

/-! ### Claim C7 counterexample -/

/-- C7 counterexample: the claim quantifies over decks in which more than
two slides have empty notes.  In `c7Deck` three of the five slides have
empty notes, but they all sit behind the backup boundary at slide 2, so the
estimator stops before counting them and returns a non-absent estimate
instead of `(None, None, None)`. -/
theorem estimate_backup_empty_notes_cex :
    emptyNotesCount c7Deck.slides = 3 ∧
      estimatePresentationLength c7Deck (cfgW 8) =
        (some "00:00:03", some ["00:02"], some ["00:00:00"]) := by
  refine ⟨by with_unfolding_all decide, by with_unfolding_all decide⟩

/-! ### Claim C3 counterexample -/

/-- C3 counterexample: the claim says a contrast ratio of exactly 1.0 is
excluded from failing checks also for font colors.  In `c3Deck` the white
font sits on the white background, a pair whose WCAG contrast ratio is
exactly 1 (first conjunct; `crWW` agrees there), yet the font-color check
flags it: the rule returns `False` with a font-contrast finding. -/
theorem fontContrast_ratio_one_flagged_cex :
    contrastRatioSpec whiteRgb whiteRgb = 1 ∧ crWW whiteRgb whiteRgb = 1 ∧
      shouldHaveHighContrastFontsColours crWW c3Deck (cfgW 8) [""] =
        .ok (false, [c3Msg], c3Deck) := by
  refine ⟨contrastRatioSpec_self whiteRgb, by with_unfolding_all decide,
    by with_unfolding_all decide⟩

/-! ### Claim C9 counterexample -/

/-- C9 counterexample: the claim says an evaluation run never mutates the
deck snapshot, including when the default-to-dark-text fallback is applied.
Running the contrast rule on `c9Deck`, whose one font color carries no type
information, hands back `c9DeckOut`, in which that color has been assigned
the DARK_1 theme role in place (rules.py line 309) — a deck different from
the input. -/
theorem contrast_rule_mutates_deck_cex :
    shouldHaveHighContrastFontsColours crWW c9Deck (cfgW 8) [""] =
        .ok (true, [""], c9DeckOut) ∧ c9DeckOut ≠ c9Deck := by
  refine ⟨by with_unfolding_all decide, by with_unfolding_all decide⟩

/-! ### Helper lemmas on the Except monad -/

theorem exbind_ok {ε α β : Type} (x : α) (f : α → Except ε β) :
    (Except.ok x >>= f) = f x := rfl

theorem exbind_error {ε α β : Type} (e : ε) (f : α → Except ε β) :
    ((Except.error e : Except ε α) >>= f) = Except.error e := rfl

theorem exbind_error_of {ε α β : Type} {x : Except ε α} {e : ε}
    (h : x = .error e) (f : α → Except ε β) : (x >>= f) = Except.error e := by
  rw [h]; rfl

theorem expure_bind {ε α β : Type} (x : α) (f : α → Except ε β) :
    ((pure x : Except ε α) >>= f) = f x := rfl

theorem expure_def {ε α : Type} (x : α) :
    (pure x : Except ε α) = Except.ok x := rfl

/-! ### Claim C10 -/

theorem contrastShapeStep_reaches_error
    (cr : Rgb → Rgb → ℚ) (cfg : Config) (scheme : List (ThemeRole × Rgb))
    (slideNum : Nat) (st : ShapeSt) (sh : Shape)
    (hr : reachesFillRead sh = true) :
    ∃ e, contrastShapeStep cr cfg scheme slideNum none st sh = .error e := by
  unfold reachesFillRead at hr
  rw [Bool.and_eq_true, Bool.not_eq_true'] at hr
  obtain ⟨hkind, hfill⟩ := hr
  obtain ⟨f, hf⟩ := Option.isSome_iff_exists.mp hfill
  unfold contrastShapeStep
  rw [if_neg (by simp [hkind])]
  rcases hlw : lineWidthCheck cfg slideNum st sh with e | st1
  · exact ⟨e, rfl⟩
  · refine ⟨PyErr.unboundLocalError, ?_⟩
    rw [exbind_ok, hf]
    rfl

theorem contrastShapesGo_reaches_error
    (cr : Rgb → Rgb → ℚ) (cfg : Config) (scheme : List (ThemeRole × Rgb))
    (slideNum : Nat) (shapes : List Shape) (st : ShapeSt)
    (hx : ∃ sh ∈ shapes, reachesFillRead sh = true) :
    ∃ e, contrastShapesGo cr cfg scheme slideNum none shapes st = .error e := by
  induction shapes generalizing st with
  | nil => simp at hx
  | cons sh shs ih =>
    rcases hstep : contrastShapeStep cr cfg scheme slideNum none st sh with e | p
    · exact ⟨e, by unfold contrastShapesGo; rw [exbind_error_of (by rw [hstep])]⟩
    · obtain ⟨st1, sh1⟩ := p
      rcases hx with ⟨w, hw, hrw⟩
      rcases List.mem_cons.mp hw with rfl | htail
      · obtain ⟨e, he⟩ := contrastShapeStep_reaches_error cr cfg scheme slideNum st w hrw
        rw [hstep] at he
        cases he
      · obtain ⟨e, he⟩ := ih st1 ⟨w, htail, hrw⟩
        refine ⟨e, ?_⟩
        unfold contrastShapesGo
        rw [hstep, exbind_ok]
        simp only [he, exbind_error]

/-- C10: the local `slide_background_color` is assigned only for non-solid
backgrounds (the `elif` comparing the fore-color object against the RGB enum
member never holds), so when the first slide has a solid background and
holds at least one shape with a fill attribute — which, by the python-pptx
well-formedness `deckFillWF`, is never a picture, chart or table — the rule
reads the variable before any assignment and the run raises an error instead
of returning a verdict. -/
theorem contrast_solid_background_raises
    (cr : Rgb → Rgb → ℚ) (prs : Deck) (cfg : Config) (fb : List String)
    (s1 : Slide) (rest : List Slide)
    (hs : prs.slides = s1 :: rest)
    (hb : isBackupSlide s1 = false)
    (hsolid : s1.bg.kind = FillKind.solid)
    (hwf : deckFillWF prs = true)
    (hsh : ∃ sh ∈ s1.shapes, sh.fill.isSome) :
    ∃ e, shouldHaveHighContrastFontsColours cr prs cfg fb = .error e := by
  have hreach : ∃ sh ∈ s1.shapes, reachesFillRead sh = true := by
    obtain ⟨sh, hmem, hfill⟩ := hsh
    refine ⟨sh, hmem, ?_⟩
    unfold deckFillWF at hwf
    rw [List.all_eq_true] at hwf
    have h1 := hwf s1 (by rw [hs]; exact List.mem_cons_self _ _)
    rw [List.all_eq_true] at h1
    have h2 := h1 sh hmem
    unfold reachesFillRead
    rw [Bool.and_eq_true, Bool.not_eq_true']
    rcases Bool.or_eq_true_iff.mp h2 with hnot | hnone
    · refine ⟨?_, hfill⟩
      simpa using hnot
    · rw [beq_iff_eq] at hnone
      rw [hnone] at hfill
      cases hfill
  obtain ⟨e, he⟩ := contrastShapesGo_reaches_error cr cfg prs.scheme 1 s1.shapes
    ⟨fb, true⟩ hreach
  refine ⟨e, ?_⟩
  unfold shouldHaveHighContrastFontsColours
  rw [hs]
  unfold contrastSlidesGo
  rw [if_neg (by simp [hb])]
  rw [if_neg (by simp [hsolid]), if_neg (by simp [foreColorEqualsRgbEnum])]
  rw [exbind_error_of (exbind_error_of he _) _]

/-! ### Claim C7 amended -/

theorem emptyNotesCount_cons (s : Slide) (l : List Slide) :
    emptyNotesCount (s :: l) =
      (if s.notes == "" then 1 else 0) + emptyNotesCount l := by
  unfold emptyNotesCount
  rw [List.filter_cons]
  by_cases h : s.notes == ""
  · simp [h, Nat.add_comm]
  · simp [h]

theorem emptyNotesCount_nil : emptyNotesCount [] = 0 := rfl

theorem timingGo_abort (cfg : Config) (slides : List Slide) :
    ∀ (total : ℚ) (k : Nat) (times cumul : List String), k ≤ 2 →
      2 < k + emptyNotesCount (scannedSlides slides) →
      timingGo cfg slides total k times cumul = (none, none, none) := by
  induction slides with
  | nil =>
    intro total k times cumul hk habove
    simp [scannedSlides, emptyNotesCount] at habove
    omega
  | cons s rest ih =>
    intro total k times cumul hk habove
    by_cases hn : s.notes == ""
    · by_cases hb : isBackupSlide s
      · rw [scannedSlides, if_pos hb, emptyNotesCount_cons, if_pos hn,
          emptyNotesCount_nil] at habove
        unfold timingGo
        rw [if_pos hn, if_pos (by omega)]
      · rw [scannedSlides, if_neg hb, emptyNotesCount_cons, if_pos hn] at habove
        unfold timingGo
        rw [if_pos hn]
        by_cases hcnt : k + 1 > 2
        · rw [if_pos hcnt]
        · rw [if_neg hcnt, if_neg hb]
          exact ih _ (k + 1) _ _ (by omega) (by omega)
    · by_cases hb : isBackupSlide s
      · rw [scannedSlides, if_pos hb, emptyNotesCount_cons, if_neg hn,
          emptyNotesCount_nil] at habove
        omega
      · rw [scannedSlides, if_neg hb, emptyNotesCount_cons, if_neg hn] at habove
        unfold timingGo
        rw [if_neg hn, if_neg (by omega), if_neg hb]
        exact ih _ k _ _ hk (by omega)

theorem timingGo_complete (cfg : Config) (slides : List Slide) :
    ∀ (total : ℚ) (k : Nat) (times cumul : List String), k ≤ 2 →
      k + emptyNotesCount (scannedSlides slides) ≤ 2 →
      ∃ t l1 l2, timingGo cfg slides total k times cumul =
          (some t, some (times ++ l1), some (cumul ++ l2)) ∧
        l1.length = (slides.takeWhile fun s => !isBackupSlide s).length := by
  induction slides with
  | nil =>
    intro total k times cumul hk hbelow
    exact ⟨fmtHMS total, [], [], by simp [timingGo], by simp⟩
  | cons s rest ih =>
    intro total k times cumul hk hbelow
    by_cases hn : s.notes == ""
    · rw [scannedSlides] at hbelow
      by_cases hb : isBackupSlide s
      · rw [if_pos hb, emptyNotesCount_cons, if_pos hn] at hbelow
        refine ⟨fmtHMS total, [], [], ?_, ?_⟩
        · unfold timingGo
          rw [if_pos hn, if_neg (by omega), if_pos hb]
          simp
        · simp [List.takeWhile, hb]
      · rw [if_neg hb, emptyNotesCount_cons, if_pos hn] at hbelow
        obtain ⟨t, l1, l2, heq, hlen⟩ :=
          ih (total + slideTimeCost cfg s + cfg.secondsBetweenSlides) (k + 1)
            (times ++ [fmtMS (slideTimeCost cfg s)]) (cumul ++ [fmtHMS total])
            (by omega) (by omega)
        refine ⟨t, [fmtMS (slideTimeCost cfg s)] ++ l1, [fmtHMS total] ++ l2, ?_, ?_⟩
        · unfold timingGo
          rw [if_pos hn, if_neg (by omega), if_neg hb]
          rw [heq]
          simp
        · simp [List.takeWhile, hb, hlen]
    · rw [scannedSlides] at hbelow
      by_cases hb : isBackupSlide s
      · refine ⟨fmtHMS total, [], [], ?_, ?_⟩
        · unfold timingGo
          rw [if_neg hn, if_neg (by omega), if_pos hb]
          simp
        · simp [List.takeWhile, hb]
      · rw [if_neg hb, emptyNotesCount_cons, if_neg hn] at hbelow
        obtain ⟨t, l1, l2, heq, hlen⟩ :=
          ih (total + slideTimeCost cfg s + cfg.secondsBetweenSlides) k
            (times ++ [fmtMS (slideTimeCost cfg s)]) (cumul ++ [fmtHMS total])
            hk (by omega)
        refine ⟨t, [fmtMS (slideTimeCost cfg s)] ++ l1, [fmtHMS total] ++ l2, ?_, ?_⟩
        · unfold timingGo
          rw [if_neg hn, if_neg (by omega), if_neg hb]
          rw [heq]
          simp
        · simp [List.takeWhile, hb, hlen]

/-- C7 amended: the estimator aborts with all three outputs absent exactly
on the slides it scans — everything up to and including the first
backup-boundary slide.  When more than two SCANNED slides have empty notes
the result is `(None, None, None)`; when at most two scanned slides have
empty notes (in particular when all slides have notes) the result has a
non-null total and one duration per in-scope slide. -/
theorem estimate_abort_characterization (prs : Deck) (cfg : Config) :
    (2 < emptyNotesCount (scannedSlides prs.slides) →
      estimatePresentationLength prs cfg = (none, none, none)) ∧
    (emptyNotesCount (scannedSlides prs.slides) ≤ 2 →
      ∃ t ts cs, estimatePresentationLength prs cfg = (some t, some ts, some cs) ∧
        ts.length = (prs.slides.takeWhile fun s => !isBackupSlide s).length) := by
  constructor
  · intro h
    exact timingGo_abort cfg prs.slides 0 0 [] [] (by omega) (by omega)
  · intro h
    obtain ⟨t, l1, l2, heq, hlen⟩ :=
      timingGo_complete cfg prs.slides 0 0 [] [] (by omega) (by omega)
    exact ⟨t, l1, l2, by simpa using heq, hlen⟩

/-- C7 amended witness: the no-backup deck with 3 of 5 slides lacking notes
aborts, and the backup deck's scanned prefix has no empty notes, so it
completes with one duration for its single in-scope slide. -/
theorem estimate_abort_characterization_witness :
    (2 < emptyNotesCount (scannedSlides c7bDeck.slides) ∧
      estimatePresentationLength c7bDeck (cfgW 8) = (none, none, none)) ∧
    (emptyNotesCount (scannedSlides c7Deck.slides) ≤ 2 ∧
      ∃ t ts cs, estimatePresentationLength c7Deck (cfgW 8) = (some t, some ts, some cs) ∧
        ts.length = (c7Deck.slides.takeWhile fun s => !isBackupSlide s).length) :=
  ⟨⟨by with_unfolding_all decide,
      (estimate_abort_characterization c7bDeck (cfgW 8)).1 (by with_unfolding_all decide)⟩,
    ⟨by with_unfolding_all decide,
      (estimate_abort_characterization c7Deck (cfgW 8)).2 (by with_unfolding_all decide)⟩⟩

/-! ### Claim C9 amended -/

theorem contrastRunStep_typed (cr : Rgb → Rgb → ℚ) (cfg : Config)
    (scheme : List (ThemeRole × Rgb)) (descr : String) (against : Rgb)
    (slideNum : Nat) (st : RunSt) (r : Run) (st' : RunSt) (r' : Run)
    (ht : runColorTyped r = true)
    (h : contrastRunStep cr cfg scheme descr against slideNum st r = .ok (st', r')) :
    r' = r := by
  unfold contrastRunStep at h
  rcases hstep1 : fontSizeCheck cfg descr slideNum st r with e | st1
  · rw [hstep1, exbind_error] at h
    cases h
  · rw [hstep1, exbind_ok] at h
    dsimp only at h
    by_cases htext : r.text == ""
    · rw [if_pos htext, expure_def] at h
      cases h
      rfl
    · rw [if_neg htext] at h
      cases hc : r.color with
      | rgbColor v =>
        rw [hc] at h
        simp only [resolveFontColor, expure_def] at h
        split at h <;> cases h <;> rw [← hc]
      | themeColor role bright =>
        rw [hc] at h
        simp only [resolveFontColor, expure_def] at h
        split at h <;> cases h <;> rw [← hc]
      | noType bright =>
        unfold runColorTyped at ht
        rw [hc] at ht
        simp at ht

theorem contrastRunsGo_typed (cr : Rgb → Rgb → ℚ) (cfg : Config)
    (scheme : List (ThemeRole × Rgb)) (descr : String) (against : Rgb)
    (slideNum : Nat) (rs : List Run) :
    ∀ (st : RunSt) (st' : RunSt) (rs' : List Run),
      rs.all runColorTyped = true →
      contrastRunsGo cr cfg scheme descr against slideNum rs st = .ok (st', rs') →
      rs' = rs := by
  induction rs with
  | nil =>
    intro st st' rs' _ h
    unfold contrastRunsGo at h
    cases h
    rfl
  | cons r rs ih =>
    intro st st' rs' hall h
    rw [List.all_cons, Bool.and_eq_true] at hall
    unfold contrastRunsGo at h
    rcases h1 : contrastRunStep cr cfg scheme descr against slideNum st r with e | p1
    · rw [h1, exbind_error] at h
      cases h
    · obtain ⟨st1, r1⟩ := p1
      rw [h1, exbind_ok] at h
      dsimp only at h
      rcases h2 : contrastRunsGo cr cfg scheme descr against slideNum rs st1 with e | p2
      · rw [h2, exbind_error] at h
        cases h
      · obtain ⟨st2, rs2⟩ := p2
        rw [h2, exbind_ok] at h
        dsimp only at h
        have e1 := contrastRunStep_typed cr cfg scheme descr against slideNum st r
          st1 r1 hall.1 h1
        have e2 := ih st1 st2 rs2 hall.2 h2
        cases h
        simp [e1, e2]

theorem contrastParasGo_typed (cr : Rgb → Rgb → ℚ) (cfg : Config)
    (scheme : List (ThemeRole × Rgb)) (descr : String) (against : Rgb)
    (slideNum : Nat) (ps : List Paragraph) :
    ∀ (st : RunSt) (st' : RunSt) (ps' : List Paragraph),
      (ps.all fun p => p.all runColorTyped) = true →
      contrastParasGo cr cfg scheme descr against slideNum ps st = .ok (st', ps') →
      ps' = ps := by
  induction ps with
  | nil =>
    intro st st' ps' _ h
    unfold contrastParasGo at h
    cases h
    rfl
  | cons p ps ih =>
    intro st st' ps' hall h
    rw [List.all_cons, Bool.and_eq_true] at hall
    unfold contrastParasGo at h
    rcases h1 : contrastRunsGo cr cfg scheme descr against slideNum p st with e | q1
    · rw [h1, exbind_error] at h
      cases h
    · obtain ⟨st1, p1⟩ := q1
      rw [h1, exbind_ok] at h
      dsimp only at h
      rcases h2 : contrastParasGo cr cfg scheme descr against slideNum ps st1 with e | q2
      · rw [h2, exbind_error] at h
        cases h
      · obtain ⟨st2, ps2⟩ := q2
        rw [h2, exbind_ok] at h
        dsimp only at h
        have e1 := contrastRunsGo_typed cr cfg scheme descr against slideNum p st
          st1 p1 hall.1 h1
        have e2 := ih st1 st2 ps2 hall.2 h2
        cases h
        simp [e1, e2]

theorem shapeFontLoop_typed (cr : Rgb → Rgb → ℚ) (cfg : Config)
    (scheme : List (ThemeRole × Rgb)) (slideNum : Nat) (against : Rgb)
    (st : ShapeSt) (sh : Shape) (st' : ShapeSt) (sh' : Shape)
    (ht : ((sh.frame.getD []).all fun p => p.all runColorTyped) = true)
    (h : shapeFontLoop cr cfg scheme slideNum against st sh = .ok (st', sh')) :
    sh' = sh := by
  unfold shapeFontLoop at h
  by_cases hfr : sh.kind != ShapeKind.line && sh.frame.isSome
  · rw [if_pos hfr] at h
    rcases hps : contrastParasGo cr cfg scheme (shapeDescr sh) against
        slideNum (sh.frame.getD []) ⟨st.fb, st.result, false, ""⟩ with e | q
    · rw [hps, exbind_error] at h
      cases h
    · obtain ⟨rst, ps'⟩ := q
      rw [hps, exbind_ok] at h
      have hps' : ps' = sh.frame.getD [] :=
        contrastParasGo_typed cr cfg scheme (shapeDescr sh) against slideNum
          (sh.frame.getD []) ⟨st.fb, st.result, false, ""⟩ rst ps' ht hps
      have hframe : sh.frame = some (sh.frame.getD []) := by
        rw [Bool.and_eq_true] at hfr
        obtain ⟨-, hfs⟩ := hfr
        obtain ⟨ps0, hps0⟩ := Option.isSome_iff_exists.mp hfs
        rw [hps0]
        rfl
      dsimp only at h
      by_cases hvt : !rst.visible && rst.temp != ""
      · rw [if_pos hvt] at h
        rcases hadd : addFb rst.fb (slideNum - 1) rst.temp with e | fb2
        · rw [hadd, exbind_error] at h
          cases h
        · rw [hadd, exbind_ok] at h
          cases h
          rw [hps', ← hframe]
      · rw [if_neg hvt] at h
        cases h
        rw [hps', ← hframe]
  · rw [if_neg hfr] at h
    cases h
    rfl

theorem contrastShapeStep_typed (cr : Rgb → Rgb → ℚ) (cfg : Config)
    (scheme : List (ThemeRole × Rgb)) (slideNum : Nat) (bg : Option Rgb)
    (st : ShapeSt) (sh : Shape) (st' : ShapeSt) (sh' : Shape)
    (ht : ((sh.frame.getD []).all fun p => p.all runColorTyped) = true)
    (h : contrastShapeStep cr cfg scheme slideNum bg st sh = .ok (st', sh')) :
    sh' = sh := by
  unfold contrastShapeStep at h
  by_cases hk : sh.kind == ShapeKind.picture || sh.kind == ShapeKind.chart ||
      sh.kind == ShapeKind.table
  · rw [if_pos hk] at h
    cases h
    rfl
  · rw [if_neg hk] at h
    rcases hline : lineWidthCheck cfg slideNum st sh with e | st1
    · rw [hline, exbind_error] at h
      cases h
    · rw [hline, exbind_ok] at h
      cases hfill : sh.fill with
      | none =>
        rw [hfill] at h
        dsimp only at h
        cases h
        rfl
      | some fillF =>
        rw [hfill] at h
        dsimp only at h
        rcases hbgv : readBg bg with e | bgv
        · rw [hbgv, exbind_error] at h
          cases h
        · rw [hbgv, exbind_ok] at h
          rcases hsolid : solidFillCheck cr cfg scheme slideNum bgv fillF sh st1 with e | sp
          · rw [hsolid, exbind_error] at h
            cases h
          · rw [hsolid, exbind_ok] at h
            exact shapeFontLoop_typed cr cfg scheme slideNum sp.2 sp.1 sh st' sh' ht h

theorem contrastShapesGo_typed (cr : Rgb → Rgb → ℚ) (cfg : Config)
    (scheme : List (ThemeRole × Rgb)) (slideNum : Nat) (bg : Option Rgb)
    (shapes : List Shape) :
    ∀ (st : ShapeSt) (st' : ShapeSt) (shapes' : List Shape),
      (shapes.all fun sh => (sh.frame.getD []).all fun p => p.all runColorTyped) = true →
      contrastShapesGo cr cfg scheme slideNum bg shapes st = .ok (st', shapes') →
      shapes' = shapes := by
  induction shapes with
  | nil =>
    intro st st' shapes' _ h
    unfold contrastShapesGo at h
    cases h
    rfl
  | cons sh shs ih =>
    intro st st' shapes' hall h
    rw [List.all_cons, Bool.and_eq_true] at hall
    unfold contrastShapesGo at h
    rcases h1 : contrastShapeStep cr cfg scheme slideNum bg st sh with e | p1
    · rw [h1, exbind_error] at h
      cases h
    · obtain ⟨st1, sh1⟩ := p1
      rw [h1, exbind_ok] at h
      dsimp only at h
      rcases h2 : contrastShapesGo cr cfg scheme slideNum bg shs st1 with e | p2
      · rw [h2, exbind_error] at h
        cases h
      · obtain ⟨st2, shs2⟩ := p2
        rw [h2, exbind_ok] at h
        dsimp only at h
        have e1 := contrastShapeStep_typed cr cfg scheme slideNum bg st sh st1 sh1
          hall.1 h1
        have e2 := ih st1 st2 shs2 hall.2 h2
        cases h
        simp [e1, e2]

theorem contrastSlidesGo_typed (cr : Rgb → Rgb → ℚ) (cfg : Config)
    (scheme : List (ThemeRole × Rgb)) (slides : List Slide) :
    ∀ (slideNum : Nat) (bg : Option Rgb) (res : Bool) (fb : List String)
      (res' : Bool) (fb' : List String) (slides' : List Slide),
      (slides.all fun s => s.shapes.all fun sh =>
        (sh.frame.getD []).all fun p => p.all runColorTyped) = true →
      contrastSlidesGo cr cfg scheme slides slideNum bg res fb = .ok (res', fb', slides') →
      slides' = slides := by
  induction slides with
  | nil =>
    intro slideNum bg res fb res' fb' slides' _ h
    unfold contrastSlidesGo at h
    cases h
    rfl
  | cons s rest ih =>
    intro slideNum bg res fb res' fb' slides' hall h
    rw [List.all_cons, Bool.and_eq_true] at hall
    unfold contrastSlidesGo at h
    by_cases hb : isBackupSlide s
    · rw [if_pos hb] at h
      cases h
      rfl
    · rw [if_neg hb] at h
      dsimp only at h
      rcases h1 : contrastShapesGo cr cfg scheme slideNum
          (if s.bg.kind != FillKind.solid then some whiteRgb
           else if foreColorEqualsRgbEnum s.bg.foreColor then
             some (colorSpecRgb s.bg.foreColor)
           else bg) s.shapes ⟨fb, res⟩ with e | p1
      · rw [h1, exbind_error] at h
        cases h
      · obtain ⟨st1, shapes1⟩ := p1
        rw [h1, exbind_ok] at h
        dsimp only at h
        rcases h2 : contrastSlidesGo cr cfg scheme rest (slideNum + 1)
            (if s.bg.kind != FillKind.solid then some whiteRgb
             else if foreColorEqualsRgbEnum s.bg.foreColor then
               some (colorSpecRgb s.bg.foreColor)
             else bg) st1.result st1.fb with e | p2
        · rw [h2, exbind_error] at h
          cases h
        · obtain ⟨res2, fb2, rest2⟩ := p2
          rw [h2, exbind_ok] at h
          dsimp only at h
          have hsh := contrastShapesGo_typed cr cfg scheme slideNum _ s.shapes
            ⟨fb, res⟩ st1 shapes1 hall.1 h1
          have hrest := ih (slideNum + 1) _ st1.result st1.fb res2 fb2 rest2
            hall.2 h2
          cases h
          simp [hsh, hrest]

/-- C9 amended: the contrast rule hands back the deck unchanged whenever no
font color lacks type information; mutation happens only through the
documented default-to-DARK_1 fallback at rules.py line 309 (and no other
rule touches the deck at all — they only read it). -/
theorem contrast_rule_no_mutation_when_typed (cr : Rgb → Rgb → ℚ) (prs : Deck)
    (cfg : Config) (fb : List String) (res : Bool) (fb' : List String)
    (prs' : Deck)
    (ht : deckFontColorsTyped prs = true)
    (h : shouldHaveHighContrastFontsColours cr prs cfg fb = .ok (res, fb', prs')) :
    prs' = prs := by
  unfold shouldHaveHighContrastFontsColours at h
  rcases h1 : contrastSlidesGo cr cfg prs.scheme prs.slides 1 none true fb with e | p
  · rw [h1, exbind_error] at h
    cases h
  · obtain ⟨res1, fb1, slides1⟩ := p
    rw [h1, exbind_ok] at h
    dsimp only at h
    have hs := contrastSlidesGo_typed cr cfg prs.scheme prs.slides 1 none true fb
      res1 fb1 slides1 ht h1
    cases h
    rw [hs]

/-! ### Claim C4 -/

theorem lookupFp_cons (hd : String × FpEntry) (tl : List (String × FpEntry))
    (k : String) :
    lookupFp (hd :: tl) k = if hd.1 == k then some hd.2 else lookupFp tl k := by
  unfold lookupFp
  cases hbe : hd.1 == k <;> simp [List.find?_cons, hbe]

theorem lookupFp_eq_of_mem_nodup (l : List (String × FpEntry))
    (hnd : (l.map Prod.fst).Nodup) (pe : String × FpEntry) (hmem : pe ∈ l) :
    lookupFp l pe.1 = some pe.2 := by
  induction l with
  | nil => cases hmem
  | cons hd tl ih =>
    rw [List.map_cons, List.nodup_cons] at hnd
    rw [lookupFp_cons]
    rcases List.mem_cons.mp hmem with rfl | htail
    · rw [if_pos (by simp)]
    · have hne : ¬(hd.1 == pe.1) = true := by
        intro hbe
        rw [beq_iff_eq] at hbe
        apply hnd.1
        rw [hbe]
        exact List.mem_map_of_mem Prod.fst htail
      rw [if_neg hne]
      exact ih hnd.2 htail

theorem mem_of_lookupFp (l : List (String × FpEntry)) (k : String) (v : FpEntry)
    (h : lookupFp l k = some v) : (k, v) ∈ l := by
  induction l with
  | nil => cases h
  | cons hd tl ih =>
    rw [lookupFp_cons] at h
    by_cases hbe : (hd.1 == k) = true
    · rw [if_pos hbe] at h
      rw [beq_iff_eq] at hbe
      obtain ⟨k0, v0⟩ := hd
      cases Option.some.inj h
      cases hbe
      exact List.mem_cons_self _ _
    · rw [if_neg hbe] at h
      exact List.mem_cons_of_mem hd (ih h)

theorem filter_key_nil (fp : String) (tl : List (String × FpEntry))
    (g : String × FpEntry → Option (String × String))
    (hg : ∀ pe out, g pe = some out → out.1 = pe.1)
    (hno : ∀ pe ∈ tl, pe.1 ≠ fp) :
    (tl.filterMap g).filter (fun pr => pr.1 == fp) = [] := by
  induction tl with
  | nil => rfl
  | cons hd tl ih =>
    rw [List.filterMap_cons]
    rcases hghd : g hd with - | out
    · exact ih (fun pe hpe => hno pe (List.mem_cons_of_mem hd hpe))
    · rw [List.filter_cons]
      rw [if_neg (by simp [hg hd out hghd, hno hd (List.mem_cons_self hd tl)])]
      exact ih (fun pe hpe => hno pe (List.mem_cons_of_mem hd hpe))

theorem count_filterMap_key (l : List (String × FpEntry))
    (hnd : (l.map Prod.fst).Nodup) (fp : String) (v : FpEntry)
    (hmem : (fp, v) ∈ l)
    (g : String × FpEntry → Option (String × String))
    (hg : ∀ pe out, g pe = some out → out.1 = pe.1)
    (hv : (g (fp, v)).isSome = true) :
    ((l.filterMap g).filter fun pr => pr.1 == fp).length = 1 := by
  induction l with
  | nil => cases hmem
  | cons hd tl ih =>
    rw [List.map_cons, List.nodup_cons] at hnd
    rw [List.filterMap_cons]
    rcases List.mem_cons.mp hmem with rfl | htail
    · rcases hghd : g (fp, v) with - | out
      · rw [hghd] at hv
        cases hv
      · rw [List.filter_cons, if_pos (by simp [hg _ out hghd])]
        rw [List.length_cons]
        have hzero : (tl.filterMap g).filter (fun pr => pr.1 == fp) = [] := by
          refine filter_key_nil fp tl g hg ?_
          intro pe hpe hkey
          apply hnd.1
          rw [show (fp, v).1 = fp from rfl, ← hkey]
          exact List.mem_map_of_mem Prod.fst hpe
        rw [hzero]
        rfl
    · have hne : hd.1 ≠ fp := by
        intro hkey
        apply hnd.1
        rw [hkey]
        have := List.mem_map_of_mem Prod.fst htail
        simpa using this
      rcases hghd : g hd with - | out
      · exact ih hnd.2 htail
      · rw [List.filter_cons, if_neg (by simp [hg hd out hghd, hne])]
        exact ih hnd.2 htail

/-- C4: in the Shape Identity Matcher's comparison of two consecutive
slides, (a) a fingerprint present in both maps at identical (left, top)
never produces a finding, regardless of its attribute content; (b) a
fingerprint present in both maps with unchanged attributes whose position
changed beyond the tolerance window produces exactly one finding; and (c)
in the full rule over a two-slide deck the pair's findings are appended to
the feedback entry of the LATER slide (index 1), the earlier slide's entry
staying untouched. -/
theorem shape_matcher_identity_and_moved :
    (∀ (mPrev mCurr : List (String × FpEntry)) (t : ℚ) (w h : Int)
      (fp : String) (e1 e2 : FpEntry), (mPrev.map Prod.fst).Nodup →
      lookupFp mPrev fp = some e1 → lookupFp mCurr fp = some e2 →
      e1.pos = e2.pos →
      ∀ msg, (fp, msg) ∉ pairFindings mPrev mCurr t w h) ∧
    (∀ (mPrev mCurr : List (String × FpEntry)) (t : ℚ) (w h : Int)
      (fp : String) (p c : Int × Int) (attrs : List String),
      (mPrev.map Prod.fst).Nodup →
      lookupFp mPrev fp = some ⟨p, attrs⟩ → lookupFp mCurr fp = some ⟨c, attrs⟩ →
      p ≠ c → withinBounds p c t w h = true →
      ((pairFindings mPrev mCurr t w h).filter fun pr => pr.1 == fp).length = 1) ∧
    (∀ (prs : Deck) (cfg : Config) (s1 s2 : Slide) (f1 f2 : String),
      prs.slides = [s1, s2] → isBackupSlide s1 = false → isBackupSlide s2 = false →
      buildFpMap s1.shapes ≠ [] → buildFpMap s2.shapes ≠ [] →
      pairFindings (buildFpMap s1.shapes) (buildFpMap s2.shapes)
          cfg.shapePosThreshold prs.slideWidth prs.slideHeight ≠ [] →
      hasSmoothSlideTransitions prs cfg [f1, f2] =
        .ok (false, [f1, f2 ++ String.join ((pairFindings (buildFpMap s1.shapes)
          (buildFpMap s2.shapes) cfg.shapePosThreshold prs.slideWidth
          prs.slideHeight).map Prod.snd)])) := by
  refine ⟨?_, ?_, ?_⟩
  · intro mPrev mCurr t w h fp e1 e2 hnd h1 h2 hpos msg hmem
    unfold pairFindings at hmem
    obtain ⟨pe, hperem, hgpe⟩ := List.mem_filterMap.mp hmem
    rcases hlk : lookupFp mCurr pe.1 with - | ce
    · rw [hlk] at hgpe
      cases hgpe
    · rw [hlk] at hgpe
      dsimp only at hgpe
      split at hgpe
      · rename_i hcond
        have hpe1 : pe.1 = fp := congrArg Prod.fst (Option.some.inj hgpe)
        have hlkpe := lookupFp_eq_of_mem_nodup mPrev hnd pe
          ((List.mem_filter.mp hperem).1)
        rw [hpe1, h1] at hlkpe
        have hpe2 : e1 = pe.2 := Option.some.inj hlkpe
        rw [hpe1, h2] at hlk
        have hce : e2 = ce := Option.some.inj hlk
        rw [Bool.and_eq_true, Bool.and_eq_true] at hcond
        obtain ⟨⟨hlen, hpc⟩, hattr⟩ := hcond
        rw [Bool.and_eq_true] at hpc
        have hnepos := hpc.1
        rw [bne_iff_ne] at hnepos
        apply hnepos
        rw [← hpe2, ← hce]
        exact hpos
      · cases hgpe
  · intro mPrev mCurr t w h fp p c attrs hnd h1 h2 hne hwb
    unfold pairFindings
    have hndrem : (((mPrev.filter fun pe =>
        !(match lookupFp mCurr pe.1 with
          | some ce => ce.pos == pe.2.pos && ce.attrs.length == pe.2.attrs.length
          | none => false)).map Prod.fst)).Nodup :=
      List.Nodup.sublist (List.Sublist.map Prod.fst (List.filter_sublist _)) hnd
    have hmem0 : (fp, (⟨p, attrs⟩ : FpEntry)) ∈ mPrev := mem_of_lookupFp mPrev fp _ h1
    have hkept : (fp, (⟨p, attrs⟩ : FpEntry)) ∈ mPrev.filter fun pe =>
        !(match lookupFp mCurr pe.1 with
          | some ce => ce.pos == pe.2.pos && ce.attrs.length == pe.2.attrs.length
          | none => false) := by
      rw [List.mem_filter]
      refine ⟨hmem0, ?_⟩
      have hc : lookupFp mCurr (fp, (⟨p, attrs⟩ : FpEntry)).1 =
          some ⟨c, attrs⟩ := h2
      rw [hc]
      simp [Ne.symm hne]
    refine count_filterMap_key _ hndrem fp ⟨p, attrs⟩ hkept _ ?_ ?_
    · intro pe out hout
      rcases hlk : lookupFp mCurr pe.1 with - | ce
      · rw [hlk] at hout
        cases hout
      · rw [hlk] at hout
        dsimp only at hout
        split at hout
        · exact (congrArg Prod.fst (Option.some.inj hout)).symm
        · cases hout
    · have hc : lookupFp mCurr (fp, (⟨p, attrs⟩ : FpEntry)).1 =
          some ⟨c, attrs⟩ := h2
      simp only [hc]
      rw [if_pos (by simp [hne, hwb])]
      rfl
  · intro prs cfg s1 s2 f1 f2 hs hb1 hb2 hm1 hm2 hfs
    unfold hasSmoothSlideTransitions
    rw [hs]
    rw [if_neg (by simp)]
    unfold transGo
    rw [if_neg (by simp [hb1])]
    rw [if_neg (by simp [buildFpMap])]
    unfold transGo
    rw [if_neg (by simp [hb2])]
    rw [if_pos (by simp [List.isEmpty_iff, hm1, hm2])]
    rw [if_neg (by simp [List.isEmpty_iff, hfs])]
    have haf : addFb [f1, f2] (2 - 1)
        (String.join ((pairFindings (buildFpMap s1.shapes) (buildFpMap s2.shapes)
          cfg.shapePosThreshold prs.slideWidth prs.slideHeight).map Prod.snd)) =
        .ok [f1, f2 ++ String.join ((pairFindings (buildFpMap s1.shapes)
          (buildFpMap s2.shapes) cfg.shapePosThreshold prs.slideWidth
          prs.slideHeight).map Prod.snd)] := by
      unfold addFb
      rw [dif_pos (by simp)]
      rfl
    rw [haf, exbind_ok]
    unfold transGo
    rfl

/-- C4 witness for parts (b) and (c): the oval moved from the origin to
(900, 900) on a 1000-by-1000 slide with a 10% tolerance yields exactly one
finding, and on the two-slide deck the rule flags the second slide. -/
theorem shape_matcher_identity_and_moved_witness :
    ((wPrevMap.map Prod.fst).Nodup ∧
      ((pairFindings wPrevMap wCurrMap (1/10) 1000 1000).filter
        fun pr => pr.1 == "AUTO_SHAPE (1),300,200,0").length = 1) ∧
    hasSmoothSlideTransitions tDeck (cfgW 8) ["", ""] =
      .ok (false, ["", "" ++ String.join ((pairFindings (buildFpMap tSlideA.shapes)
        (buildFpMap tSlideB.shapes) (cfgW 8).shapePosThreshold tDeck.slideWidth
        tDeck.slideHeight).map Prod.snd)]) :=
  ⟨⟨by with_unfolding_all decide,
      shape_matcher_identity_and_moved.2.1 wPrevMap wCurrMap (1/10) 1000 1000
        "AUTO_SHAPE (1),300,200,0" (0, 0) (900, 900) ["OVAL (9)"]
        (by with_unfolding_all decide) (by with_unfolding_all decide)
        (by with_unfolding_all decide) (by with_unfolding_all decide)
        (by with_unfolding_all decide)⟩,
    shape_matcher_identity_and_moved.2.2 tDeck (cfgW 8) tSlideA tSlideB "" ""
      (by with_unfolding_all decide) (by with_unfolding_all decide)
      (by with_unfolding_all decide) (by with_unfolding_all decide)
      (by with_unfolding_all decide) (by with_unfolding_all decide)⟩

/-- C9 amended witness: on `c3Deck`, whose font colors are all typed, the
rule returns the deck unchanged. -/
theorem contrast_rule_no_mutation_when_typed_witness :
    deckFontColorsTyped c3Deck = true ∧
      shouldHaveHighContrastFontsColours crWW c3Deck (cfgW 8) [""] =
        .ok (false, [c3Msg], c3Deck) ∧ c3Deck = c3Deck :=
  ⟨by with_unfolding_all decide, by with_unfolding_all decide,
    contrast_rule_no_mutation_when_typed crWW c3Deck (cfgW 8) [""] false [c3Msg]
      c3Deck (by with_unfolding_all decide) (by with_unfolding_all decide)⟩

/-! ### Claim C3 amended -/

/-- C3 amended: a contrast ratio of exactly 1.0 — the ratio any color has
against itself — is excluded from failing checks in the shape-fill-versus-
background comparison (rules.py line 255), but the font-color comparison
(lines 317-318) has no such exclusion: a ratio of 1.0 below the configured
minimum still counts as a failing font check when no other font in the shape
is visible. -/
theorem contrast_ratio_one_exclusion (minS minF : ℚ) (v : Rgb)
    (h : (1 : ℚ) < minF) :
    contrastRatioSpec v v = 1 ∧ shapeFillCheckFails 1 minS = false ∧
      fontColorCheckFails 1 minF false = true := by
  refine ⟨contrastRatioSpec_self v, ?_, ?_⟩
  · simp [shapeFillCheckFails]
  · simp [fontColorCheckFails, h]

/-- C3 amended witness at minimum ratio 3 and the color white. -/
theorem contrast_ratio_one_exclusion_witness :
    (1 : ℚ) < 3 ∧
      (contrastRatioSpec whiteRgb whiteRgb = 1 ∧ shapeFillCheckFails 1 3 = false ∧
        fontColorCheckFails 1 3 false = true) :=
  ⟨by norm_num, contrast_ratio_one_exclusion 3 3 whiteRgb (by norm_num)⟩

/-- C10 witness: `c10Deck` satisfies the hypotheses, so the rule errors. -/
theorem contrast_solid_background_raises_witness :
    isBackupSlide c10Slide = false ∧ c10Slide.bg.kind = FillKind.solid ∧
      deckFillWF c10Deck = true ∧ (∃ sh ∈ c10Slide.shapes, sh.fill.isSome) ∧
      ∃ e, shouldHaveHighContrastFontsColours crWW c10Deck (cfgW 8) [""] = .error e :=
  ⟨by with_unfolding_all decide, by with_unfolding_all decide,
    by with_unfolding_all decide,
    ⟨c10Shape, by with_unfolding_all decide, by with_unfolding_all decide⟩,
    contrast_solid_background_raises crWW c10Deck (cfgW 8) [""] c10Slide []
      (by with_unfolding_all decide) (by with_unfolding_all decide)
      (by with_unfolding_all decide) (by with_unfolding_all decide)
      ⟨c10Shape, by with_unfolding_all decide, by with_unfolding_all decide⟩⟩

/-! ### Feedback-length preservation (claims C1 and C2) -/

theorem addFb_length (fb : List String) (i : Nat) (s : String) (fb' : List String)
    (h : addFb fb i s = .ok fb') : fb'.length = fb.length := by
  unfold addFb at h
  split at h
  · cases h
    exact List.length_set fb _ _
  · cases h

theorem foldlM_except_inv {σ α : Type} (P : σ → Prop) (f : σ → α → Except PyErr σ)
    (hf : ∀ s a s', f s a = .ok s' → P s → P s') :
    ∀ (l : List α) (s s' : σ), l.foldlM f s = .ok s' → P s → P s' := by
  intro l
  induction l with
  | nil =>
    intro s s' h hp
    rw [List.foldlM_nil] at h
    cases h
    exact hp
  | cons a l ih =>
    intro s s' h hp
    rw [List.foldlM_cons] at h
    rcases h1 : f s a with e | s1
    · rw [h1, exbind_error] at h
      cases h
    · rw [h1, exbind_ok] at h
      exact ih s1 s' h (hf s a s1 h1 hp)

theorem snShapeStep_length (slideHeight : Int) (slideNum : Nat)
    (st : SNState × Bool) (sh : Shape) (st' : SNState × Bool) (n : Nat)
    (h : snShapeStep slideHeight slideNum st sh = .ok st')
    (hp : st.1.fb.length = n) : st'.1.fb.length = n := by
  unfold snShapeStep at h
  cases hf : sh.frame with
  | none =>
    rw [hf] at h
    dsimp only at h
    cases h
    exact hp
  | some ps =>
    rw [hf] at h
    dsimp only at h
    split at h
    · split at h
      · split at h
        · split at h
          · cases h
            exact hp
          · split at h
            · rcases ha : addFb st.1.fb (slideNum - 1)
                  "Slide number is misplaced in a different location.\n" with e | fb2
              · rw [ha, exbind_error] at h
                cases h
              · rw [ha, exbind_ok] at h
                cases h
                rw [← hp]
                exact addFb_length _ _ _ _ ha
            · cases h
              exact hp
        · cases h
          exact hp
      · cases h
        exact hp
    · cases h
      exact hp

theorem snGo_length (slideHeight : Int) (slides : List Slide) :
    ∀ (slideNum : Nat) (st : SNState) (b : Bool) (fb' : List String),
      snGo slideHeight slides slideNum st = .ok (b, fb') →
      fb'.length = st.fb.length := by
  induction slides with
  | nil =>
    intro slideNum st b fb' h
    unfold snGo at h
    cases h
    rfl
  | cons s rest ih =>
    intro slideNum st b fb' h
    unfold snGo at h
    split at h
    · exact ih 2 st b fb' h
    · split at h
      · cases h
        rfl
      · rcases h1 : s.shapes.foldlM (snShapeStep slideHeight slideNum) (st, false)
            with e | p
        · rw [h1, exbind_error] at h
          cases h
        · obtain ⟨st1, slideHas⟩ := p
          rw [h1, exbind_ok] at h
          dsimp only at h
          have hlen1 : st1.fb.length = st.fb.length :=
            foldlM_except_inv (fun q => q.1.fb.length = st.fb.length)
              (snShapeStep slideHeight slideNum)
              (fun q a q' hq hp => snShapeStep_length slideHeight slideNum q a q' _ hq hp)
              s.shapes (st, false) (st1, slideHas) h1 rfl
          split at h
          · rcases ha : addFb st1.fb (slideNum - 1)
                "Slide number is missingon this slide.\n" with e | fb2
            · rw [ha, exbind_error] at h
              cases h
            · rw [ha, exbind_ok] at h
              have := ih (slideNum + 1) _ b fb' h
              rw [this]
              dsimp only
              rw [addFb_length _ _ _ _ ha]
              exact hlen1
          · have := ih (slideNum + 1) st1 b fb' h
            rw [this, hlen1]

theorem shouldHaveSlideNumbers_length (prs : Deck) (fb : List String) (b : Bool)
    (fb' : List String) (h : shouldHaveSlideNumbers prs fb = .ok (b, fb')) :
    fb'.length = fb.length := by
  unfold shouldHaveSlideNumbers at h
  split at h
  · cases h
    rfl
  · exact snGo_length prs.slideHeight prs.slides 1 ⟨false, 0, 0, fb⟩ b fb' h

theorem transGo_length (t : ℚ) (w hh : Int) (slides : List Slide) :
    ∀ (slideNum : Nat) (mPrev : List (String × FpEntry)) (smooth : Bool)
      (fb : List String) (b : Bool) (fb' : List String),
      transGo t w hh slides slideNum mPrev smooth fb = .ok (b, fb') →
      fb'.length = fb.length := by
  induction slides with
  | nil =>
    intro slideNum mPrev smooth fb b fb' h
    unfold transGo at h
    cases h
    rfl
  | cons s rest ih =>
    intro slideNum mPrev smooth fb b fb' h
    unfold transGo at h
    split at h
    · cases h
      rfl
    · dsimp only at h
      split at h
      · split at h
        · exact ih _ _ _ _ b fb' h
        · rcases ha : addFb fb (slideNum - 1)
              (String.join ((pairFindings mPrev (buildFpMap s.shapes) t w hh).map
                Prod.snd)) with e | fb2
          · rw [ha, exbind_error] at h
            cases h
          · rw [ha, exbind_ok] at h
            rw [ih _ _ _ _ b fb' h]
            exact addFb_length _ _ _ _ ha
      · exact ih _ _ _ _ b fb' h

theorem hasSmoothSlideTransitions_length (prs : Deck) (cfg : Config)
    (fb : List String) (b : Bool) (fb' : List String)
    (h : hasSmoothSlideTransitions prs cfg fb = .ok (b, fb')) :
    fb'.length = fb.length := by
  unfold hasSmoothSlideTransitions at h
  split at h
  · cases h
    rfl
  · exact transGo_length _ _ _ prs.slides 1 [] true fb b fb' h

theorem fontSizeCheck_length (cfg : Config) (descr : String) (slideNum : Nat)
    (st : RunSt) (r : Run) (st' : RunSt)
    (h : fontSizeCheck cfg descr slideNum st r = .ok st') :
    st'.fb.length = st.fb.length := by
  unfold fontSizeCheck at h
  split at h
  · split at h
    · rcases ha : addFb st.fb (slideNum - 1)
          ("🗚 Font size for text '" ++ r.text ++ "' in shape " ++ descr ++
            " is too small.\n") with e | fb2
      · rw [ha, exbind_error] at h
        cases h
      · rw [ha, exbind_ok] at h
        cases h
        exact addFb_length _ _ _ _ ha
    · cases h
      rfl
  · cases h
    rfl

theorem contrastRunStep_length (cr : Rgb → Rgb → ℚ) (cfg : Config)
    (scheme : List (ThemeRole × Rgb)) (descr : String) (against : Rgb)
    (slideNum : Nat) (st : RunSt) (r : Run) (st' : RunSt) (r' : Run)
    (h : contrastRunStep cr cfg scheme descr against slideNum st r = .ok (st', r')) :
    st'.fb.length = st.fb.length := by
  unfold contrastRunStep at h
  rcases h1 : fontSizeCheck cfg descr slideNum st r with e | st1
  · rw [h1, exbind_error] at h
    cases h
  · rw [h1, exbind_ok] at h
    have hlen := fontSizeCheck_length cfg descr slideNum st r st1 h1
    split at h
    · cases h
      exact hlen
    · dsimp only at h
      split at h
      · cases h
        exact hlen
      · cases h
        exact hlen

theorem contrastRunsGo_length (cr : Rgb → Rgb → ℚ) (cfg : Config)
    (scheme : List (ThemeRole × Rgb)) (descr : String) (against : Rgb)
    (slideNum : Nat) (rs : List Run) :
    ∀ (st : RunSt) (st' : RunSt) (rs' : List Run),
      contrastRunsGo cr cfg scheme descr against slideNum rs st = .ok (st', rs') →
      st'.fb.length = st.fb.length := by
  induction rs with
  | nil =>
    intro st st' rs' h
    unfold contrastRunsGo at h
    cases h
    rfl
  | cons r rs ih =>
    intro st st' rs' h
    unfold contrastRunsGo at h
    rcases h1 : contrastRunStep cr cfg scheme descr against slideNum st r with e | p1
    · rw [h1, exbind_error] at h
      cases h
    · obtain ⟨st1, r1⟩ := p1
      rw [h1, exbind_ok] at h
      dsimp only at h
      rcases h2 : contrastRunsGo cr cfg scheme descr against slideNum rs st1 with e | p2
      · rw [h2, exbind_error] at h
        cases h
      · obtain ⟨st2, rs2⟩ := p2
        rw [h2, exbind_ok] at h
        cases h
        rw [ih st1 st2 rs2 h2]
        exact contrastRunStep_length cr cfg scheme descr against slideNum st r st1 r1 h1

theorem contrastParasGo_length (cr : Rgb → Rgb → ℚ) (cfg : Config)
    (scheme : List (ThemeRole × Rgb)) (descr : String) (against : Rgb)
    (slideNum : Nat) (ps : List Paragraph) :
    ∀ (st : RunSt) (st' : RunSt) (ps' : List Paragraph),
      contrastParasGo cr cfg scheme descr against slideNum ps st = .ok (st', ps') →
      st'.fb.length = st.fb.length := by
  induction ps with
  | nil =>
    intro st st' ps' h
    unfold contrastParasGo at h
    cases h
    rfl
  | cons p ps ih =>
    intro st st' ps' h
    unfold contrastParasGo at h
    rcases h1 : contrastRunsGo cr cfg scheme descr against slideNum p st with e | q1
    · rw [h1, exbind_error] at h
      cases h
    · obtain ⟨st1, p1⟩ := q1
      rw [h1, exbind_ok] at h
      dsimp only at h
      rcases h2 : contrastParasGo cr cfg scheme descr against slideNum ps st1 with e | q2
      · rw [h2, exbind_error] at h
        cases h
      · obtain ⟨st2, ps2⟩ := q2
        rw [h2, exbind_ok] at h
        cases h
        rw [ih st1 st2 ps2 h2]
        exact contrastRunsGo_length cr cfg scheme descr against slideNum p st st1 p1 h1

theorem lineWidthCheck_length (cfg : Config) (slideNum : Nat) (st : ShapeSt)
    (sh : Shape) (st' : ShapeSt) (h : lineWidthCheck cfg slideNum st sh = .ok st') :
    st'.fb.length = st.fb.length := by
  unfold lineWidthCheck at h
  split at h
  · split at h
    · rcases ha : addFb st.fb (slideNum - 1)
          ("🔎 Line width for " ++ shapeKindStr ShapeKind.line ++
            " is too small to be seen at " ++ toString sh.lineWidthPt ++ " pts.\n")
          with e | fb2
      · rw [ha, exbind_error] at h
        cases h
      · rw [ha, exbind_ok] at h
        cases h
        exact addFb_length _ _ _ _ ha
    · cases h
      rfl
  · cases h
    rfl

theorem solidFillCheck_length (cr : Rgb → Rgb → ℚ) (cfg : Config)
    (scheme : List (ThemeRole × Rgb)) (slideNum : Nat) (bgv : Rgb)
    (fillF : FillFormat) (sh : Shape) (st : ShapeSt) (sp : ShapeSt × Rgb)
    (h : solidFillCheck cr cfg scheme slideNum bgv fillF sh st = .ok sp) :
    sp.1.fb.length = st.fb.length := by
  unfold solidFillCheck at h
  split at h
  · rcases h1 : resolveFillColor scheme fillF.foreColor with e | colorRgb
    · rw [h1, exbind_error] at h
      cases h
    · rw [h1, exbind_ok] at h
      dsimp only at h
      split at h
      · split at h
        · cases h
          rfl
        · rcases ha : addFb st.fb (slideNum - 1)
              ("🌈 Colour contrast for " ++ shapeDescr sh ++
                "is not sufficient from the slide background colour.\n") with e | fb2
          · rw [ha, exbind_error] at h
            cases h
          · rw [ha, exbind_ok] at h
            cases h
            exact addFb_length _ _ _ _ ha
      · cases h
        rfl
  · cases h
    rfl

theorem shapeFontLoop_length (cr : Rgb → Rgb → ℚ) (cfg : Config)
    (scheme : List (ThemeRole × Rgb)) (slideNum : Nat) (against : Rgb)
    (st : ShapeSt) (sh : Shape) (st' : ShapeSt) (sh' : Shape)
    (h : shapeFontLoop cr cfg scheme slideNum against st sh = .ok (st', sh')) :
    st'.fb.length = st.fb.length := by
  unfold shapeFontLoop at h
  split at h
  · rcases hps : contrastParasGo cr cfg scheme (shapeDescr sh) against
        slideNum (sh.frame.getD []) ⟨st.fb, st.result, false, ""⟩ with e | q
    · rw [hps, exbind_error] at h
      cases h
    · obtain ⟨rst, ps'⟩ := q
      rw [hps, exbind_ok] at h
      have hlen : rst.fb.length = st.fb.length :=
        contrastParasGo_length cr cfg scheme (shapeDescr sh) against slideNum
          (sh.frame.getD []) ⟨st.fb, st.result, false, ""⟩ rst ps' hps
      dsimp only at h
      split at h
      · rcases ha : addFb rst.fb (slideNum - 1) rst.temp with e | fb2
        · rw [ha, exbind_error] at h
          cases h
        · rw [ha, exbind_ok] at h
          cases h
          rw [← hlen]
          exact addFb_length _ _ _ _ ha
      · cases h
        exact hlen
  · cases h
    rfl

theorem contrastShapeStep_length (cr : Rgb → Rgb → ℚ) (cfg : Config)
    (scheme : List (ThemeRole × Rgb)) (slideNum : Nat) (bg : Option Rgb)
    (st : ShapeSt) (sh : Shape) (st' : ShapeSt) (sh' : Shape)
    (h : contrastShapeStep cr cfg scheme slideNum bg st sh = .ok (st', sh')) :
    st'.fb.length = st.fb.length := by
  unfold contrastShapeStep at h
  split at h
  · cases h
    rfl
  · rcases hline : lineWidthCheck cfg slideNum st sh with e | st1
    · rw [hline, exbind_error] at h
      cases h
    · rw [hline, exbind_ok] at h
      have hlen1 := lineWidthCheck_length cfg slideNum st sh st1 hline
      cases hfill : sh.fill with
      | none =>
        rw [hfill] at h
        dsimp only at h
        cases h
        exact hlen1
      | some fillF =>
        rw [hfill] at h
        dsimp only at h
        rcases hbgv : readBg bg with e | bgv
        · rw [hbgv, exbind_error] at h
          cases h
        · rw [hbgv, exbind_ok] at h
          rcases hsolid : solidFillCheck cr cfg scheme slideNum bgv fillF sh st1
              with e | sp
          · rw [hsolid, exbind_error] at h
            cases h
          · rw [hsolid, exbind_ok] at h
            have hlen2 := solidFillCheck_length cr cfg scheme slideNum bgv fillF
              sh st1 sp hsolid
            have hlen3 := shapeFontLoop_length cr cfg scheme slideNum sp.2 sp.1
              sh st' sh' h
            rw [hlen3, hlen2, hlen1]

theorem contrastShapesGo_length (cr : Rgb → Rgb → ℚ) (cfg : Config)
    (scheme : List (ThemeRole × Rgb)) (slideNum : Nat) (bg : Option Rgb)
    (shapes : List Shape) :
    ∀ (st : ShapeSt) (st' : ShapeSt) (shapes' : List Shape),
      contrastShapesGo cr cfg scheme slideNum bg shapes st = .ok (st', shapes') →
      st'.fb.length = st.fb.length := by
  induction shapes with
  | nil =>
    intro st st' shapes' h
    unfold contrastShapesGo at h
    cases h
    rfl
  | cons sh shs ih =>
    intro st st' shapes' h
    unfold contrastShapesGo at h
    rcases h1 : contrastShapeStep cr cfg scheme slideNum bg st sh with e | p1
    · rw [h1, exbind_error] at h
      cases h
    · obtain ⟨st1, sh1⟩ := p1
      rw [h1, exbind_ok] at h
      dsimp only at h
      rcases h2 : contrastShapesGo cr cfg scheme slideNum bg shs st1 with e | p2
      · rw [h2, exbind_error] at h
        cases h
      · obtain ⟨st2, shs2⟩ := p2
        rw [h2, exbind_ok] at h
        cases h
        rw [ih st1 st2 shs2 h2]
        exact contrastShapeStep_length cr cfg scheme slideNum bg st sh st1 sh1 h1

theorem contrastSlidesGo_length (cr : Rgb → Rgb → ℚ) (cfg : Config)
    (scheme : List (ThemeRole × Rgb)) (slides : List Slide) :
    ∀ (slideNum : Nat) (bg : Option Rgb) (res : Bool) (fb : List String)
      (res' : Bool) (fb' : List String) (slides' : List Slide),
      contrastSlidesGo cr cfg scheme slides slideNum bg res fb = .ok (res', fb', slides') →
      fb'.length = fb.length := by
  induction slides with
  | nil =>
    intro slideNum bg res fb res' fb' slides' h
    unfold contrastSlidesGo at h
    cases h
    rfl
  | cons s rest ih =>
    intro slideNum bg res fb res' fb' slides' h
    unfold contrastSlidesGo at h
    split at h
    · cases h
      rfl
    · dsimp only at h
      rcases h1 : contrastShapesGo cr cfg scheme slideNum
          (if s.bg.kind != FillKind.solid then some whiteRgb
           else if foreColorEqualsRgbEnum s.bg.foreColor then
             some (colorSpecRgb s.bg.foreColor)
           else bg) s.shapes ⟨fb, res⟩ with e | p1
      · rw [h1, exbind_error] at h
        cases h
      · obtain ⟨st1, shapes1⟩ := p1
        rw [h1, exbind_ok] at h
        dsimp only at h
        rcases h2 : contrastSlidesGo cr cfg scheme rest (slideNum + 1)
            (if s.bg.kind != FillKind.solid then some whiteRgb
             else if foreColorEqualsRgbEnum s.bg.foreColor then
               some (colorSpecRgb s.bg.foreColor)
             else bg) st1.result st1.fb with e | p2
        · rw [h2, exbind_error] at h
          cases h
        · obtain ⟨res2, fb2, rest2⟩ := p2
          rw [h2, exbind_ok] at h
          cases h
          rw [ih _ _ _ _ _ _ _ h2]
          exact contrastShapesGo_length cr cfg scheme slideNum _ s.shapes
            ⟨fb, res⟩ st1 shapes1 h1

theorem shouldHaveHighContrastFontsColours_length (cr : Rgb → Rgb → ℚ)
    (prs : Deck) (cfg : Config) (fb : List String) (res : Bool)
    (fb' : List String) (prs' : Deck)
    (h : shouldHaveHighContrastFontsColours cr prs cfg fb = .ok (res, fb', prs')) :
    fb'.length = fb.length := by
  unfold shouldHaveHighContrastFontsColours at h
  rcases h1 : contrastSlidesGo cr cfg prs.scheme prs.slides 1 none true fb with e | p
  · rw [h1, exbind_error] at h
    cases h
  · obtain ⟨res1, fb1, slides1⟩ := p
    rw [h1, exbind_ok] at h
    dsimp only at h
    have hlen := contrastSlidesGo_length cr cfg prs.scheme prs.slides 1 none
      true fb res1 fb1 slides1 h1
    cases h
    exact hlen

theorem excessiveGo_length (maxW : Nat) (slides : List Slide) :
    ∀ (slideNum : Nat) (hasEx : Bool) (fb : List String) (b : Bool)
      (fb' : List String),
      excessiveGo maxW slides slideNum hasEx fb = .ok (b, fb') →
      fb'.length = fb.length := by
  induction slides with
  | nil =>
    intro slideNum hasEx fb b fb' h
    unfold excessiveGo at h
    cases h
    rfl
  | cons s rest ih =>
    intro slideNum hasEx fb b fb' h
    unfold excessiveGo at h
    split at h
    · rcases ha : addFb fb (slideNum - 1)
          "😴 Excessive amount of words on this slide.\n" with e | fb2
      · rw [ha, exbind_error] at h
        cases h
      · rw [ha, exbind_ok] at h
        rw [ih _ _ _ b fb' h]
        exact addFb_length _ _ _ _ ha
    · exact ih _ _ _ b fb' h

theorem shouldNotHaveExcessiveText_length (prs : Deck) (cfg : Config)
    (fb : List String) (b : Bool) (fb' : List String)
    (h : shouldNotHaveExcessiveText prs cfg fb = .ok (b, fb')) :
    fb'.length = fb.length := by
  unfold shouldNotHaveExcessiveText at h
  exact excessiveGo_length cfg.maxWordsPerSlide prs.slides 1 false fb b fb' h

theorem sentenceRunStep_length (classify : String → Bool) (titleLower : String)
    (slideNum : Nat) (ac : Bool × List String) (r : Run) (ac' : Bool × List String)
    (n : Nat) (h : sentenceRunStep classify titleLower slideNum ac r = .ok ac')
    (hp : ac.2.length = n) : ac'.2.length = n := by
  unfold sentenceRunStep at h
  split at h
  · rcases ha : addFb ac.2 (slideNum - 1)
        ("Avoid full sentences: '" ++ r.text ++ "'\n") with e | fb2
    · rw [ha, exbind_error] at h
      cases h
    · rw [ha, exbind_ok] at h
      cases h
      rw [← hp]
      exact addFb_length _ _ _ _ ha
  · cases h
    exact hp

theorem sentencesGo_length (classify : String → Bool) (slides : List Slide) :
    ∀ (slideNum : Nat) (res : Bool) (fb : List String) (b : Bool)
      (fb' : List String),
      sentencesGo classify slides slideNum res fb = .ok (b, fb') →
      fb'.length = fb.length := by
  induction slides with
  | nil =>
    intro slideNum res fb b fb' h
    unfold sentencesGo at h
    cases h
    rfl
  | cons s rest ih =>
    intro slideNum res fb b fb' h
    unfold sentencesGo at h
    dsimp only at h
    rcases h1 : (((s.shapes.filterMap Shape.frame).flatten).flatten).foldlM
        (sentenceRunStep classify
          (match s.title with | some t => t.toLower | none => "") slideNum)
        (res, fb) with e | ac
    · rw [h1, exbind_error] at h
      cases h
    · rw [h1, exbind_ok] at h
      have hlen : ac.2.length = fb.length :=
        foldlM_except_inv (fun q => q.2.length = fb.length)
          (sentenceRunStep classify
            (match s.title with | some t => t.toLower | none => "") slideNum)
          (fun q a q' hq hp => sentenceRunStep_length classify _ slideNum q a q' _ hq hp)
          _ (res, fb) ac h1 rfl
      rw [ih _ _ _ b fb' h]
      exact hlen

theorem doesNotHaveCompleteSentences_length (classify : String → Bool)
    (prs : Deck) (fb : List String) (b : Bool) (fb' : List String)
    (h : doesNotHaveCompleteSentences classify prs fb = .ok (b, fb')) :
    fb'.length = fb.length := by
  unfold doesNotHaveCompleteSentences at h
  exact sentencesGo_length classify prs.slides 1 true fb b fb' h

theorem pyReplaceNlChars_ne_nil (l : List Char) (h : l ≠ []) :
    pyReplaceNlChars l ≠ [] := by
  cases l with
  | nil => exact absurd rfl h
  | cons c rest =>
    unfold pyReplaceNlChars
    split <;> simp

theorem pyReplaceNl_ne_empty (s : String) (h : s ≠ "") : pyReplaceNl s ≠ "" := by
  intro he
  apply h
  have hchars : pyReplaceNlChars s.data = [] := by
    have hd := congrArg String.data he
    simpa [pyReplaceNl] using hd
  have hdata : s.data = [] := by
    by_contra hne
    exact pyReplaceNlChars_ne_nil s.data hne hchars
  obtain ⟨d⟩ := s
  simp only at hdata
  rw [hdata]

theorem finalizeFb_length (l : List String) :
    (finalizeFb l).2.length = l.length := by
  induction l with
  | nil => rfl
  | cons f rest ih =>
    unfold finalizeFb
    split <;> simp [ih]

theorem finalizeFb_pass_iff (l : List String) :
    (finalizeFb l).1 = true ↔ ∀ f ∈ (finalizeFb l).2, f = "" := by
  induction l with
  | nil => simp [finalizeFb]
  | cons f rest ih =>
    unfold finalizeFb
    by_cases hf : (f == "") = true
    · rw [if_pos hf]
      rw [beq_iff_eq] at hf
      constructor
      · intro hp g hg
        rcases List.mem_cons.mp hg with rfl | htail
        · exact hf
        · exact (ih.mp hp) g htail
      · intro hall
        exact ih.mpr fun g hg => hall g (List.mem_cons_of_mem f hg)
    · rw [if_neg hf]
      constructor
      · intro hp
        cases hp
      · intro hall
        exfalso
        have hne : f ≠ "" := by simpa using hf
        exact pyReplaceNl_ne_empty f hne
          (hall (pyReplaceNl f) (List.mem_cons_self _ _))

theorem initialFeedback_length (slides : List Slide) :
    (initialFeedback slides).length =
      (slides.takeWhile fun s => !isBackupSlide s).length := by
  induction slides with
  | nil => rfl
  | cons s rest ih =>
    by_cases hb : isBackupSlide s <;>
      simp [initialFeedback, List.takeWhile_cons, hb, ih]

theorem mainController_ok_parts (classify : String → Bool) (cr : Rgb → Rgb → ℚ)
    (prs : Deck) (cfg : Config) (m : FeedbackModel)
    (h : mainController classify cr prs cfg = .ok m) :
    ∃ l : List String, m.slideFeedback = (finalizeFb l).2 ∧
      m.passAllChecks = (finalizeFb l).1 ∧
      l.length = (initialFeedback prs.slides).length := by
  unfold mainController at h
  rcases h2 : shouldHaveSlideNumbers prs (initialFeedback prs.slides) with e | r2
  · rw [h2, exbind_error] at h
    cases h
  · rw [h2, exbind_ok] at h
    rcases h3 : hasSmoothSlideTransitions prs cfg r2.2 with e | r3
    · rw [h3, exbind_error] at h
      cases h
    · rw [h3, exbind_ok] at h
      rcases h4 : shouldHaveHighContrastFontsColours cr prs cfg r3.2 with e | r4
      · rw [h4, exbind_error] at h
        cases h
      · rw [h4, exbind_ok] at h
        rcases h5 : shouldNotHaveExcessiveText r4.2.2 cfg r4.2.1 with e | r5
        · rw [h5, exbind_error] at h
          cases h
        · rw [h5, exbind_ok] at h
          rcases h6 : doesNotHaveCompleteSentences classify r4.2.2 r5.2 with e | r6
          · rw [h6, exbind_error] at h
            cases h
          · rw [h6, exbind_ok] at h
            rcases h7 : startSlideNumOf prs with e | start
            · rw [h7, exbind_error] at h
              cases h
            · rw [h7, exbind_ok] at h
              cases h
              refine ⟨r6.2, rfl, rfl, ?_⟩
              rw [doesNotHaveCompleteSentences_length classify r4.2.2 r5.2 r6.1
                r6.2 (by rw [← h6])]
              rw [shouldNotHaveExcessiveText_length r4.2.2 cfg r4.2.1 r5.1 r5.2
                (by rw [← h5])]
              rw [shouldHaveHighContrastFontsColours_length cr prs cfg r3.2 r4.1
                r4.2.1 r4.2.2 (by rw [← h4])]
              rw [hasSmoothSlideTransitions_length prs cfg r2.2 r3.1 r3.2
                (by rw [← h3])]
              rw [shouldHaveSlideNumbers_length prs (initialFeedback prs.slides)
                r2.1 r2.2 (by rw [← h2])]

/-! ### Claim C1 -/

/-- C1: whenever one orchestrator run completes and produces a
FeedbackModel, its `slide_feedback` has exactly one (possibly empty) entry
per in-scope slide — the slides before the first backup boundary, or all
slides when there is none.  Every rule either appends to an existing entry
or raises, so no in-scope slide is ever dropped from feedback indexing. -/
theorem mainController_feedback_length (classify : String → Bool)
    (cr : Rgb → Rgb → ℚ) (prs : Deck) (cfg : Config) (m : FeedbackModel)
    (h : mainController classify cr prs cfg = .ok m) :
    m.slideFeedback.length = inScopeCount prs := by
  obtain ⟨l, hfb, -, hlen⟩ := mainController_ok_parts classify cr prs cfg m h
  rw [hfb, finalizeFb_length, hlen, initialFeedback_length]
  rfl

/-- C1 witness: the one-slide deck `c2Deck` completes with one entry. -/
theorem mainController_feedback_length_witness :
    mainController classify0 crWW c2Deck (cfgW 8) = .ok c2Model ∧
      c2Model.slideFeedback.length = inScopeCount c2Deck :=
  ⟨by with_unfolding_all decide,
    mainController_feedback_length classify0 crWW c2Deck (cfgW 8) c2Model
      (by with_unfolding_all decide)⟩

/-! ### Claim C2 -/

/-- C2 counterexample: the claim makes the deck-level pass flag the
conjunction of the boolean rules.  On `c2Deck` the summary rule returns
False (its message lands only in `general_feedback`), yet the produced
model's `pass_all_checks` is True, because pptchecker.py lines 70-74 derive
the flag solely from the per-slide feedback strings. -/
theorem passFlag_not_conjunction_cex :
    mainController classify0 crWW c2Deck (cfgW 8) = .ok c2Model ∧
      c2Model.passAllChecks = true ∧ mustEndWithSummarySlide c2Deck = false := by
  refine ⟨by with_unfolding_all decide, by with_unfolding_all decide,
    by with_unfolding_all decide⟩

/-- C2 amended: the deck-level pass flag of a completed run is true exactly
when every per-slide feedback entry is empty; the boolean rule results feed
only `general_feedback`, and any rule that writes non-empty per-slide text —
the annotation-only sentence rule included — flips the flag to false. -/
theorem mainController_pass_iff (classify : String → Bool)
    (cr : Rgb → Rgb → ℚ) (prs : Deck) (cfg : Config) (m : FeedbackModel)
    (h : mainController classify cr prs cfg = .ok m) :
    m.passAllChecks = true ↔ ∀ f ∈ m.slideFeedback, f = "" := by
  obtain ⟨l, hfb, hpass, -⟩ := mainController_ok_parts classify cr prs cfg m h
  rw [hfb, hpass]
  exact finalizeFb_pass_iff l

/-- C2 amended witness on the one-slide deck. -/
theorem mainController_pass_iff_witness :
    mainController classify0 crWW c2Deck (cfgW 8) = .ok c2Model ∧
      (c2Model.passAllChecks = true ↔ ∀ f ∈ c2Model.slideFeedback, f = "") :=
  ⟨by with_unfolding_all decide,
    mainController_pass_iff classify0 crWW c2Deck (cfgW 8) c2Model
      (by with_unfolding_all decide)⟩

end PPTXchecker
